import Mathlib

/-!
Verification development for the `universal-linux-hotspot` backend
(`hotspot_backend.py`).  The Python functions relevant to the frozen claims
are shallowly embedded below: pure string parsing is translated to functions
on `List Char` / `String`, and every interaction with the operating system
(subprocess output, file existence, routing tables) is made an explicit
parameter of the embedded function, so each definition is a faithful,
executable translation of the corresponding Python code.
-/

namespace Hotspot

/-! ## Python string primitives

These model the exact primitives the backend uses: `str.strip`, `str.lower`,
`str.split`, substring containment (`in`), `str.startswith`, and the handful
of `re.search` patterns appearing in the source, with Python semantics
(first match wins, greedy digit runs, `\s` = ASCII whitespace). -/

/-- Python `str.isspace` for the characters `\s` matches (ASCII whitespace). -/
def pySpace (c : Char) : Bool :=
  c = ' ' || c = '\t' || c = '\n' || c = '\r' || c = '\x0b' || c = '\x0c'

/-- Python `str.strip` on a character list. -/
def stripL (cs : List Char) : List Char :=
  ((cs.dropWhile pySpace).reverse.dropWhile pySpace).reverse

/-- Lowercasing, as Python `str.lower` acts on the ASCII text we model. -/
def lowerL (cs : List Char) : List Char := cs.map Char.toLower

/-- Does `pat` occur as a prefix of `cs`? -/
def startsL (pat cs : List Char) : Bool :=
  match pat, cs with
  | [], _ => true
  | _ :: _, [] => false
  | p :: ps, c :: cs => p = c && startsL ps cs

/-- Python `pat in s`: substring containment. -/
def containsL (pat cs : List Char) : Bool :=
  match cs with
  | [] => pat.isEmpty
  | _ :: rest => startsL pat cs || containsL pat rest

/-- Python `pat in s` on strings. -/
def pyContains (s pat : String) : Bool := containsL pat.data s.data

/-- Python `s.strip()` on strings. -/
def pyStrip (s : String) : String := String.mk (stripL s.data)

def splitWsAux : List Char → List Char → List (List Char)
  | [], cur => if cur.isEmpty then [] else [cur.reverse]
  | c :: rest, cur =>
    if pySpace c then
      if cur.isEmpty then splitWsAux rest []
      else cur.reverse :: splitWsAux rest []
    else splitWsAux rest (c :: cur)

/-- Python `s.split()` (split on whitespace runs, dropping empty parts). -/
def pySplitWs (s : String) : List String :=
  (splitWsAux s.data []).map String.mk

def splitCharAux (sep : Char) : List Char → List Char → List (List Char)
  | [], cur => [cur.reverse]
  | c :: rest, cur =>
    if c = sep then cur.reverse :: splitCharAux sep rest []
    else splitCharAux sep rest (c :: cur)

/-- Python `s.split(sep)` for a one-character separator. -/
def pySplitOn (s : String) (sep : Char) : List String :=
  (splitCharAux sep s.data []).map String.mk

/-- Python `s.startswith(pat)`. -/
def pyStarts (s pat : String) : Bool := startsL pat.data s.data

/-- Value of a run of decimal digits, as Python `int`. -/
def digitsVal (ds : List Char) : Nat :=
  ds.foldl (fun n c => n * 10 + (c.toNat - '0'.toNat)) 0

/-- One attempted match of `\s*<=\s*(\d+)` at the head of `cs` (used right
after a literal keyword); returns the captured number. -/
def matchLeNumAt (cs : List Char) : Option Nat :=
  let r := cs.dropWhile pySpace
  if startsL ['<', '='] r then
    let r2 := (r.drop 2).dropWhile pySpace
    let ds := r2.takeWhile Char.isDigit
    if ds.isEmpty then none else some (digitsVal ds)
  else none

/-- One attempted match of `kw\s*<=\s*(\d+)` at the head of `cs`. -/
def matchKwLeNumAt (kw cs : List Char) : Option Nat :=
  if startsL kw cs then matchLeNumAt (cs.drop kw.length) else none

/-- Python re.search for the keyword followed by whitespace, a less-equal
sign, whitespace and a digit run: first match, captured number. -/
def searchKwLeNum (kw : List Char) : List Char → Option Nat
  | [] => none
  | c :: rest =>
    match matchKwLeNumAt kw (c :: rest) with
    | some n => some n
    | none => searchKwLeNum kw rest

/-- One attempted match of `#\x7b\s*managed\s*\x7d` (IGNORECASE) at the head. -/
def matchManagedAt (cs : List Char) : Bool :=
  match cs with
  | '#' :: '\x7b' :: rest =>
    let r := rest.dropWhile pySpace
    if startsL ['m', 'a', 'n', 'a', 'g', 'e', 'd'] (lowerL (r.take 7)) then
      let r2 := (r.drop 7).dropWhile pySpace
      match r2 with
      | '\x7d' :: _ => true
      | _ => false
    else false
  | _ => false

/-- Python re.search (IGNORECASE) for a brace set holding exactly the
word managed, as a Bool. -/
def searchManaged : List Char → Bool
  | [] => false
  | c :: rest => matchManagedAt (c :: rest) || searchManaged rest

/-- One attempted match of `#\x7b[^\x7d]*AP[^\x7d]*\x7d` (IGNORECASE) at the
head: the text between the braces (which cannot contain a closing brace)
must contain `AP` case-insensitively, and a closing brace must follow. -/
def matchApSetAt (cs : List Char) : Bool :=
  match cs with
  | '#' :: '\x7b' :: rest =>
    let seg := rest.takeWhile (fun c => c ≠ '\x7d')
    let after := rest.dropWhile (fun c => c ≠ '\x7d')
    match after with
    | '\x7d' :: _ => containsL ['a', 'p'] (lowerL seg)
    | _ => false
  | _ => false

/-- Python re.search (IGNORECASE) for a brace set whose contents mention
AP, as a Bool. -/
def searchApSet : List Char → Bool
  | [] => false
  | c :: rest => matchApSetAt (c :: rest) || searchApSet rest

/-- One attempted match of `dev\s+(\S+)` at the head of `cs`. -/
def matchDevAt (cs : List Char) : Option String :=
  if startsL ['d', 'e', 'v'] cs then
    let r := cs.drop 3
    let ws := r.takeWhile pySpace
    if ws.isEmpty then none
    else
      let r2 := r.dropWhile pySpace
      let tok := r2.takeWhile (fun c => !pySpace c)
      if tok.isEmpty then none else some (String.mk tok)
  else none

/-- Python re.search for the word dev, whitespace, and a non-space run:
first match, captured device name. -/
def searchDev : List Char → Option String
  | [] => none
  | c :: rest =>
    match matchDevAt (c :: rest) with
    | some d => some d
    | none => searchDev rest

/-- The same device-name search applied to a string. -/
def searchDevStr (s : String) : Option String := searchDev s.data

/-! ## Upstream Resolver (`get_upstream_interface`)

The routing queries issued by the function are environment inputs:
`routeGet t` is the (stripped) stdout of `ip route get t`, `none` when the
command failed or produced empty output, and `routeShowDefault` is the list
of output lines of `ip -4 route show default` (`none` for failure or empty
output, matching the `if output:` truthiness tests in the source). -/

structure UpstreamEnv where
  routeGet : String → Option String
  routeShowDefault : Option (List String)

/-- The VPN-name test: does the device name begin with tun, tap, wg or
ppp (the startswith tuple at line 1415). -/
def isVpnName (dev : String) : Bool :=
  startsL ['t', 'u', 'n'] dev.data || startsL ['t', 'a', 'p'] dev.data ||
  startsL ['w', 'g'] dev.data || startsL ['p', 'p', 'p'] dev.data

/-- The candidate devices collected from the default-route listing: every
`dev <name>` match, one per line, in line order. -/
def defaultRouteCandidates (lines : List String) : List String :=
  lines.foldr (fun line acc =>
    match searchDev line.data with
    | some d => d :: acc
    | none => acc) []

/-- Shallow embedding of `get_upstream_interface` (hotspot_backend.py,
lines 1383-1422). -/
def get_upstream_interface (env : UpstreamEnv) (exclude_vpn : Bool) : Option String :=
  if !exclude_vpn then
    match (env.routeGet "1.1.1.1").bind searchDevStr with
    | some d => some d
    | none =>
      match (env.routeGet "8.8.8.8").bind searchDevStr with
      | some d => some d
      | none =>
        match env.routeShowDefault with
        | none => none
        | some lines => (defaultRouteCandidates lines).head?
  else
    let lines := env.routeShowDefault.getD []
    let candidates := defaultRouteCandidates lines
    let filtered := candidates.filter (fun dev => !isVpnName dev)
    match filtered with
    | d :: _ => some d
    | [] =>
      match candidates with
      | d :: _ => some d
      | [] => none

/-! ## Rule Engine (`update_firewall`) and Monitor Loop step

`iptables` rule specifications appearing in `update_firewall` are modelled
by an inductive `Rule`; each constructor corresponds to exactly one rule
argv in the source.  The firewall state tracks the three chains the
function touches plus the FORWARD policy.  `sysctl` invocations have no
effect on this state and are omitted. -/

/-- The iptables rule specs issued by `update_firewall`:
`masquerade u` is `-o u -j MASQUERADE` (nat POSTROUTING);
`clampMss` is `-p tcp --tcp-flags SYN,RST SYN -j TCPMSS --clamp-mss-to-pmtu`;
`acceptEstablished` is `-m state --state RELATED,ESTABLISHED -j ACCEPT`;
`acceptInOut i o` is `-i i -o o -j ACCEPT`;
`macAccept i o m` is `-i i -o o -m mac --mac-source m -j ACCEPT`;
`macDrop i o m` is `-i i -o o -m mac --mac-source m -j DROP`;
`dropIn i` is `-i i -j DROP`. -/
inductive Rule where
  | masquerade (outIface : String)
  | clampMss
  | acceptEstablished
  | acceptInOut (inIface outIface : String)
  | macAccept (inIface outIface mac : String)
  | macDrop (inIface outIface mac : String)
  | dropIn (inIface : String)
  deriving DecidableEq

structure FirewallState where
  natPostrouting : List Rule
  filterForward : List Rule
  mangleForward : List Rule
  forwardPolicy : String
  deriving DecidableEq

/-- Insertion of a rule at position 1 of the filter-table FORWARD chain. -/
def insForward (r : Rule) (fw : FirewallState) : FirewallState :=
  { fw with filterForward := r :: fw.filterForward }

/-- Appending of a rule to the filter-table FORWARD chain. -/
def appForward (r : Rule) (fw : FirewallState) : FirewallState :=
  { fw with filterForward := fw.filterForward ++ [r] }

/-- Shallow embedding of `update_firewall` (hotspot_backend.py, lines
1456-1509).  The module globals `MAC_MODE` / `MAC_LIST` are passed
explicitly; the `sysctl` calls do not touch iptables state. -/
def update_firewall (hotspot_iface upstream_iface : String)
    (macMode : String) (macList : List String)
    (fw : FirewallState) : FirewallState :=
  let fw := { fw with natPostrouting := [] }
  let fw := { fw with filterForward := [] }
  let fw := { fw with natPostrouting := Rule.masquerade upstream_iface :: fw.natPostrouting }
  let fw := { fw with forwardPolicy := "ACCEPT" }
  let fw := { fw with mangleForward := [] }
  let fw := { fw with mangleForward := Rule.clampMss :: fw.mangleForward }
  let fw := insForward Rule.acceptEstablished fw
  let fw := insForward (Rule.acceptInOut upstream_iface hotspot_iface) fw
  if macMode = "allow" then
    let fw := appForward (Rule.dropIn hotspot_iface) fw
    macList.foldl (fun fw mac =>
      insForward (Rule.macAccept hotspot_iface upstream_iface mac) fw) fw
  else if macMode = "block" then
    let fw := insForward (Rule.acceptInOut hotspot_iface upstream_iface) fw
    macList.foldl (fun fw mac =>
      insForward (Rule.macDrop hotspot_iface upstream_iface mac) fw) fw
  else fw

/-- State carried across monitor-loop iterations: the last upstream the
loop programmed (`CURRENT_UPSTREAM_IFACE`) and the firewall. -/
structure LoopState where
  currentUpstream : Option String
  fw : FirewallState
  deriving DecidableEq

/-- One upstream-tracking step of the monitoring loop (hotspot_backend.py,
lines 1892-1901).  `newUpstream` is the value `get_upstream_interface`
resolved this iteration (`none` for a falsy result). -/
def monitorStep (usingConcurrency : Bool) (actualHotspotIface : String)
    (macMode : String) (macList : List String)
    (newUpstream : Option String) (st : LoopState) : LoopState :=
  match newUpstream with
  | none => st
  | some u =>
    if some u ≠ st.currentUpstream then
      if u ≠ actualHotspotIface then
        let fw' := if usingConcurrency then st.fw
                   else update_firewall actualHotspotIface u macMode macList st.fw
        { currentUpstream := some u, fw := fw' }
      else st
    else st

/-! ### First-match packet evaluation for the FORWARD chain

Used to state the MAC-policy reachability consequences of the rule order.
A packet is matched against the chain front to back; the first matching
rule decides (`some true` = ACCEPT, `some false` = DROP), and `none` means
no rule matched (the chain policy applies). -/

structure Packet where
  inIface : String
  outIface : String
  srcMac : String
  established : Bool

def ruleMatches (p : Packet) : Rule → Bool
  | Rule.masquerade _ => false
  | Rule.clampMss => false
  | Rule.acceptEstablished => p.established
  | Rule.acceptInOut i o => p.inIface = i && p.outIface = o
  | Rule.macAccept i o m => p.inIface = i && p.outIface = o && p.srcMac = m
  | Rule.macDrop i o m => p.inIface = i && p.outIface = o && p.srcMac = m
  | Rule.dropIn i => p.inIface = i

def ruleVerdict : Rule → Bool
  | Rule.masquerade _ => true
  | Rule.clampMss => true
  | Rule.acceptEstablished => true
  | Rule.acceptInOut _ _ => true
  | Rule.macAccept _ _ _ => true
  | Rule.macDrop _ _ _ => false
  | Rule.dropIn _ => false

/-- Verdict of the first rule in `chain` matching `p`, if any. -/
def evalForward (chain : List Rule) (p : Packet) : Option Bool :=
  match chain with
  | [] => none
  | r :: rest => if ruleMatches p r then some (ruleVerdict r) else evalForward rest p

/-! ## Interface snapshots

The dictionary built per interface by `get_detailed_interfaces`
(hotspot_backend.py, lines 470-492), as a record.  `concurrency_channels`
is `Option Nat` because the probe returns `None` when concurrency is
unsupported. -/

structure IfaceInfo where
  name : String
  itype : String
  state : String
  connected : Bool
  connection_name : Option String
  driver : Option String
  is_usb : Bool
  is_internal : Bool
  is_vpn : Bool
  is_mobile : Bool
  is_tethered : Bool
  is_bridge : Bool
  ap_support : Bool
  supports_5ghz : Bool
  supports_concurrency : Bool
  concurrency_channels : Option Nat
  in_monitor_mode : Bool
  has_ip : Bool
  ip_address : Option String
  is_internet_source : Bool
  label : String
  issues : List String
  deriving DecidableEq

/-! ## Preflight Validator (`preflight_checks`)

Environment inputs: the interface inventory (the result of the
`get_detailed_interfaces()` call the function makes), the NetworkManager
service probe (`none` models the `except` branch), the rfkill probe, the
hotspot recommendation of `get_smart_interface_selection` (used when no
interface was passed), the per-interface `check_interface_state` outcome,
the upstream resolution per exclude-VPN flag, and the pgrep result
(the PIDs of other backend processes, self already excluded). -/

structure PreflightEnv where
  interfaces : List IfaceInfo
  nmCheck : Option Bool
  nmExc : String
  rfkillOk : Bool
  rfkillMsg : String
  recommendedHotspot : Option String
  ifaceState : String → Bool × Option String
  upstreamOf : Bool → Option String
  otherPids : List String

/-- The triple `preflight_checks` returns, with the error list kept as a
list (the source joins it with newlines only for display). -/
structure PreflightReport where
  ok : Bool
  errors : List String
  warnings : List String
  deriving DecidableEq

/-- The final `if errors: return False ... return True` of the source. -/
def preflightFinalize (errors warnings : List String) : PreflightReport :=
  if errors.isEmpty then ⟨true, errors, warnings⟩ else ⟨false, errors, warnings⟩

/-- Python truthiness for an optional string (`None` and `""` are falsy). -/
def pyStrOpt (o : Option String) : Option String :=
  match o with
  | some s => if s.isEmpty then none else some s
  | none => none

/-- Rendering of `connection_name` inside f-strings (`None` prints as
`"None"`). -/
def connDisp (o : Option String) : String :=
  match o with
  | some s => s
  | none => "None"

/- The message strings produced by `preflight_checks`, verbatim. -/

def msgNmNotRunning : String :=
  "NetworkManager is not running. Start it with: sudo systemctl start NetworkManager"
def msgNmVerify (e : String) : String :=
  "Could not verify NetworkManager status: " ++ e
def msgNoWifi : String :=
  "No Wi-Fi interfaces found. Ensure your Wi-Fi adapter is connected and recognized."
def msgMonitorList (names : List String) : String :=
  "Interface(s) in monitor mode (cannot use for AP): " ++ String.intercalate ", " names
def msgNoSuitable : String :=
  "No suitable Wi-Fi interface found for hotspot."
def msgNotFound (t : String) (names : List String) : String :=
  "Interface \x27" ++ t ++ "\x27 not found. Available: " ++ String.intercalate ", " names
def msgMonitorTarget (t : String) : String :=
  "Interface " ++ t ++ " is in MONITOR MODE and cannot be used for Access Point.\nTo fix: sudo iw dev " ++ t ++ " set type managed"
def msgNoApAlt (t lbl : String) : String :=
  "Interface " ++ t ++ " does not support AP mode.\nAlternative with AP support: " ++ lbl
def msgNoAp (t : String) : String :=
  "Interface " ++ t ++ " does not support AP (Access Point) mode.\nYou may need a different Wi-Fi adapter that supports AP mode."
def msgConcurrentMulti (conn : String) (channels : Nat) : String :=
  "🎯 STA+AP Concurrent Mode: WiFi stays connected to \x27" ++ conn ++ "\x27 while hosting hotspot (" ++ toString channels ++ " channels available)."
def msgConcurrentSame (conn : String) : String :=
  "🎯 STA+AP Concurrent Mode: WiFi stays connected to \x27" ++ conn ++ "\x27 while hosting hotspot (same channel required)."
def msgForced (t conn : String) : String :=
  "⚠️ FORCED: Your only Wi-Fi interface (" ++ t ++ ") will disconnect from \x27" ++ conn ++ "\x27. You will lose internet connectivity. Proceed with caution."
def msgBlocked (t conn : String) : String :=
  "BLOCKED: Your only Wi-Fi interface (" ++ t ++ ") is providing internet via \x27" ++ conn ++ "\x27.\nStarting a hotspot will disconnect you completely.\nSolutions:\n  1. Connect via Ethernet cable first\n  2. Add a USB Wi-Fi adapter for the hotspot\n  3. Tether your phone via USB for internet\n  4. Use --force-single-interface flag if you understand the risk"
def msgEthContinue (t conn eth : String) : String :=
  "Your Wi-Fi (" ++ t ++ ") will disconnect from \x27" ++ conn ++ "\x27. Internet will continue via Ethernet (" ++ eth ++ ")."
def msgMobileContinue (t conn : String) : String :=
  "Your Wi-Fi (" ++ t ++ ") will disconnect from \x27" ++ conn ++ "\x27. Internet will continue via Mobile Broadband."
def msgTetherContinue (t conn : String) : String :=
  "Your Wi-Fi (" ++ t ++ ") will disconnect from \x27" ++ conn ++ "\x27. Internet will continue via Phone Tethering."
def msgOtherWifi (t lbl : String) : String :=
  "Interface " ++ t ++ " is providing internet. Consider using " ++ lbl ++ " for hotspot instead."
def msgWillDisconnect (t conn : String) : String :=
  "Interface " ++ t ++ " is connected to \x27" ++ conn ++ "\x27. It will be disconnected to start the hotspot."
def msgNotSourceConcurrent (conn : String) : String :=
  "🎯 STA+AP Concurrent Mode: Connection to \x27" ++ conn ++ "\x27 will be maintained."
def msgNoInternet : String :=
  "No active internet connection detected. Hotspot clients will not have internet access unless you connect later."
def msgNo5ghz (t : String) : String :=
  "Interface " ++ t ++ " does not support 5GHz band.\nUse 2.4GHz band instead, or use a 5GHz-capable adapter."
def msgSsidLen : String := "SSID must be between 1 and 32 characters."
def msgSsidAscii : String :=
  "SSID contains non-ASCII characters. Some devices may not display it correctly."
def msgPwShort : String := "Password must be at least 8 characters for WPA2 security."
def msgPwLong : String := "Password must not exceed 63 characters."
def msgOtherBackend (pids : List String) : String :=
  "Another hotspot backend may be running (PIDs: " ++ String.intercalate ", " pids ++ "). It will be terminated."
def msgIssue (issue : String) : String := "Interface issue: " ++ issue

/-- The errors and warnings contributed by the busy/conflict analysis
(check 9, hotspot_backend.py lines 1248-1326). -/
def busyCheck (wifi_interfaces : List IfaceInfo) (tinfo : IfaceInfo)
    (target : String) (upstream : Option String)
    (connected_ethernet connected_mobile connected_tether : List IfaceInfo)
    (has_alternative_internet force_single_interface : Bool) :
    List String × List String :=
  let conn := connDisp tinfo.connection_name
  if tinfo.connected then
    let is_internet_source := tinfo.is_internet_source || some target == upstream
    if is_internet_source then
      let ap_capable_other_wifi := wifi_interfaces.filter
        (fun i => i.name != target && i.ap_support && !i.in_monitor_mode)
      if tinfo.supports_concurrency then
        let channels := tinfo.concurrency_channels.getD 1
        if channels ≥ 2 then ([], [msgConcurrentMulti conn channels])
        else ([], [msgConcurrentSame conn])
      else if !has_alternative_internet && wifi_interfaces.length == 1 then
        if force_single_interface then ([], [msgForced target conn])
        else ([msgBlocked target conn], [])
      else
        match connected_ethernet with
        | e :: _ => ([], [msgEthContinue target conn e.name])
        | [] =>
          if !connected_mobile.isEmpty then ([], [msgMobileContinue target conn])
          else if !connected_tether.isEmpty then ([], [msgTetherContinue target conn])
          else
            match ap_capable_other_wifi with
            | o :: _ => ([], [msgOtherWifi target o.label])
            | [] => ([], [msgWillDisconnect target conn])
    else
      if tinfo.supports_concurrency then ([], [msgNotSourceConcurrent conn])
      else ([], [msgWillDisconnect target conn])
  else ([], [])

/-- The checks that run after the last early return (checks 7-15,
hotspot_backend.py lines 1208-1377), accumulating onto the lists built so
far. -/
def preflightTail (env : PreflightEnv) (wifi_interfaces ethernet_interfaces
    mobile_interfaces tether_interfaces : List IfaceInfo)
    (tinfo : IfaceInfo) (target : String) (ssid password : Option String)
    (exclude_vpn force_single_interface : Bool) (band : String)
    (errors warnings : List String) : PreflightReport :=
  let st := env.ifaceState target
  let errors := if !st.1 then errors ++ [st.2.getD ""] else errors
  let warnings :=
    if st.1 then
      match st.2 with
      | some m => warnings ++ [m]
      | none => warnings
    else warnings
  let errors :=
    if !tinfo.ap_support then
      match wifi_interfaces.filter (fun i => i.ap_support && !i.in_monitor_mode) with
      | o :: _ => errors ++ [msgNoApAlt target o.label]
      | [] => errors ++ [msgNoAp target]
    else errors
  let connected_ethernet := ethernet_interfaces.filter (fun i => i.connected || i.has_ip)
  let connected_mobile := mobile_interfaces.filter (fun i => i.has_ip)
  let connected_tether := tether_interfaces.filter (fun i => i.has_ip)
  let connected_wifi := wifi_interfaces.filter (fun i => i.connected && i.name != target)
  let has_alternative_internet := !connected_ethernet.isEmpty ||
    !connected_mobile.isEmpty || !connected_tether.isEmpty || !connected_wifi.isEmpty
  let upstream := env.upstreamOf exclude_vpn
  let ew9 := busyCheck wifi_interfaces tinfo target upstream connected_ethernet
    connected_mobile connected_tether has_alternative_internet force_single_interface
  let errors := errors ++ ew9.1
  let warnings := warnings ++ ew9.2
  let warnings :=
    if upstream.isNone && !has_alternative_internet then warnings ++ [msgNoInternet]
    else warnings
  let errors :=
    if band == "a" && !tinfo.supports_5ghz then errors ++ [msgNo5ghz target]
    else errors
  let ew12 : List String × List String :=
    match pyStrOpt ssid with
    | some s =>
      (if s.length < 1 || s.length > 32 then [msgSsidLen] else [],
       if s.data.any (fun c => c.toNat > 127) then [msgSsidAscii] else [])
    | none => ([], [])
  let errors := errors ++ ew12.1
  let warnings := warnings ++ ew12.2
  let errors :=
    match pyStrOpt password with
    | some p =>
      if p.length < 8 then errors ++ [msgPwShort]
      else if p.length > 63 then errors ++ [msgPwLong]
      else errors
    | none => errors
  let warnings :=
    if !env.otherPids.isEmpty then warnings ++ [msgOtherBackend env.otherPids]
    else warnings
  let warnings := warnings ++
    (tinfo.issues.filter (fun s => !pyContains s "No AP")).map msgIssue
  preflightFinalize errors warnings

/-- Shallow embedding of `preflight_checks` (hotspot_backend.py, lines
1134-1377). -/
def preflight_checks (env : PreflightEnv) (interface : Option String)
    (ssid password : Option String)
    (exclude_vpn force_single_interface : Bool) (band : String) :
    PreflightReport :=
  let all_interfaces := env.interfaces
  let wifi_interfaces := all_interfaces.filter (fun i => i.itype == "wifi")
  let ethernet_interfaces := all_interfaces.filter (fun i => i.itype == "ethernet")
  let mobile_interfaces := all_interfaces.filter (fun i => i.is_mobile)
  let tether_interfaces := all_interfaces.filter (fun i => i.is_tethered)
  let ew1 : List String × List String :=
    match env.nmCheck with
    | some true => ([], [])
    | some false => ([msgNmNotRunning], [])
    | none => ([], [msgNmVerify env.nmExc])
  let errors := ew1.1
  let warnings := ew1.2
  if !env.rfkillOk then ⟨false, errors ++ [env.rfkillMsg], warnings⟩
  else if wifi_interfaces.isEmpty then ⟨false, errors ++ [msgNoWifi], warnings⟩
  else
    let monitor_ifaces := wifi_interfaces.filter (fun i => i.in_monitor_mode)
    let warnings :=
      if !monitor_ifaces.isEmpty then
        warnings ++ [msgMonitorList (monitor_ifaces.map (fun i => i.name))]
      else warnings
    let target1 :=
      match pyStrOpt interface with
      | some t => some t
      | none => pyStrOpt env.recommendedHotspot
    match target1 with
    | none => ⟨false, errors ++ [msgNoSuitable], warnings⟩
    | some target =>
      match wifi_interfaces.find? (fun i => i.name == target) with
      | none =>
        ⟨false, errors ++ [msgNotFound target (wifi_interfaces.map (fun i => i.name))],
          warnings⟩
      | some tinfo =>
        if tinfo.in_monitor_mode then
          ⟨false, errors ++ [msgMonitorTarget target], warnings⟩
        else
          preflightTail env wifi_interfaces ethernet_interfaces mobile_interfaces
            tether_interfaces tinfo target ssid password exclude_vpn
            force_single_interface band errors warnings

/-! ## STA+AP concurrency probe (`check_sta_ap_concurrency`)

Environment inputs: the lines of `iw dev <iface> info` (`none` = command
failed) and, per phy name, the lines of `iw <phy> info`. -/

/-- Outcome of scanning the whitespace tokens of one line for `wiphy`:
not present, present with a following token, or present as the last token
(which makes the Python `parts[i+1]` raise `IndexError`). -/
inductive TokenScan where
  | notFound
  | found (next : String)
  | oob
  deriving DecidableEq

def wiphyScan : List String → TokenScan
  | [] => TokenScan.notFound
  | p :: rest =>
    if p == "wiphy" then
      match rest with
      | n :: _ => TokenScan.found n
      | [] => TokenScan.oob
    else wiphyScan rest

/-- The phy-name loop of `check_sta_ap_concurrency` (lines 654-661): every
line containing `wiphy` re-assigns `phy_name` from the token after the
`wiphy` token; a `wiphy` token with nothing after it raises, which the
enclosing `except` turns into the unsupported result. -/
def extractPhyName : List String → Option String → Except Unit (Option String)
  | [], acc => Except.ok acc
  | line :: rest, acc =>
    if pyContains line "wiphy" then
      match wiphyScan (pySplitWs line) with
      | TokenScan.found n => extractPhyName rest (some ("phy" ++ n))
      | TokenScan.notFound => extractPhyName rest acc
      | TokenScan.oob => Except.error ()
    else extractPhyName rest acc

/-- State of the combinations scan: inside the section yet, the accumulated
`current_combo` text, and the running `max_channels`. -/
structure ComboScan where
  inComb : Bool
  combo : List Char
  maxCh : Nat
  deriving DecidableEq

/-- The line loop of `check_sta_ap_concurrency` (lines 672-693): a line
containing the section header (case-insensitively) turns accumulation on
and is skipped; afterwards a non-empty line that starts with neither a tab
nor a space ends the loop; every other line has its stripped text appended
to `current_combo` (space-separated) and its `#channels <= n` figure,
if any, folded into `max_channels`. -/
def comboLineScan : List String → ComboScan → ComboScan
  | [], st => st
  | line :: rest, st =>
    if pyContains (String.mk (lowerL line.data)) "valid interface combinations:" then
      comboLineScan rest { st with inComb := true }
    else if st.inComb then
      if !(stripL line.data).isEmpty && !(startsL ['\t'] line.data) &&
          !(startsL [' '] line.data) then
        st
      else
        let st := { st with combo := st.combo ++ (' ' :: stripL line.data) }
        let st :=
          if pyContains line "#channels" then
            match searchKwLeNum ['#', 'c', 'h', 'a', 'n', 'n', 'e', 'l', 's'] line.data with
            | some n => { st with maxCh := max st.maxCh n }
            | none => st
          else st
        comboLineScan rest st
    else comboLineScan rest st

/-- The decision the probe takes on the phy-info text (lines 671-706). -/
def concurrencyFromPhyInfo (plines : List String) : Bool × Option Nat :=
  let st := comboLineScan plines ⟨false, [], 1⟩
  let has_managed := searchManaged st.combo
  let has_ap := searchApSet st.combo
  let total_ok :=
    match searchKwLeNum ['t', 'o', 't', 'a', 'l'] st.combo with
    | some n => decide (2 ≤ n)
    | none => false
  let supports := has_managed && has_ap && total_ok
  (supports, if supports then some st.maxCh else none)

/-- Shallow embedding of `check_sta_ap_concurrency` (hotspot_backend.py,
lines 634-709). -/
def check_sta_ap_concurrency (devInfo : Option (List String))
    (phyInfoOf : String → Option (List String)) : Bool × Option Nat :=
  match devInfo with
  | none => (false, none)
  | some dlines =>
    match extractPhyName dlines none with
    | Except.error _ => (false, none)
    | Except.ok none => (false, none)
    | Except.ok (some phy) =>
      match phyInfoOf phy with
      | none => (false, none)
      | some plines => concurrencyFromPhyInfo plines

/-! The reading that the claim (and the doc comment of the probe) states: some
single advertised combination must simultaneously permit the managed role
and an AP role with a total role count at least 2.  The definitions below
follow the words of the claim: the combination section is cut into blocks, one
per `*` entry, and each block is tested on its own. -/

/-- The lines of the `valid interface combinations:` section, under the
same delimiting rule the code uses (header line to first non-indented
non-empty line). -/
def comboSectionLines : List String → Bool → List String
  | [], _ => []
  | line :: rest, inComb =>
    if pyContains (String.mk (lowerL line.data)) "valid interface combinations:" then
      comboSectionLines rest true
    else if inComb then
      if !(stripL line.data).isEmpty && !(startsL ['\t'] line.data) &&
          !(startsL [' '] line.data) then []
      else line :: comboSectionLines rest inComb
    else comboSectionLines rest inComb

/-- Group the section lines into one text per combination: a stripped line
beginning with `*` opens a new combination block, and continuation lines
are appended to the open block (space-separated, stripped), matching the
layout `iw` prints. -/
def comboBlocks : List String → List (List Char) → List (List Char)
  | [], acc => acc.reverse
  | line :: rest, acc =>
    let s := stripL line.data
    match s with
    | '*' :: _ =>
      comboBlocks rest (s :: acc)
    | _ =>
      match acc with
      | [] => comboBlocks rest acc
      | b :: bs => comboBlocks rest ((b ++ (' ' :: s)) :: bs)

/-- A single combination block that permits managed and AP roles with a
total role count of at least 2 — the property the claim says the probe
requires. -/
def blockPermitsBoth (b : List Char) : Bool :=
  searchManaged b && searchApSet b &&
    (match searchKwLeNum ['t', 'o', 't', 'a', 'l'] b with
     | some n => decide (2 ≤ n)
     | none => false)

/-- Does some single advertised combination simultaneously permit a managed
role and an AP role with total ≥ 2? -/
def singleComboSupports (plines : List String) : Bool :=
  (comboBlocks (comboSectionLines plines false) []).any blockPermitsBoth

/-! ## Interface Inventory (`get_detailed_interfaces`)

Environment inputs: the nmcli terse device listing, the `ip -4 addr show`
output lines, the resolved hardware/driver symlink paths, the per-interface
wifi capability probes, and the raw `ip route show default` output.
(The `/sys/class/net` listing the source builds into `all_ifaces` is dead
code — never read afterwards — and is not modelled.) -/

structure InventoryEnv where
  nmcliLines : Option (List String)
  ipAddrLines : List String
  devicePathOf : String → Option String
  driverPathOf : String → Option String
  apSupportOf : String → Bool
  fiveGhzOf : String → Bool
  concurrencyOf : String → Bool × Option Nat
  monitorOf : String → Bool
  routeShowDefaultOut : Option String

/-- Last-write-wins lookup for the `ip_info` dict. -/
def dictGet (k : String) (l : List (String × String)) : Option String :=
  (l.reverse.find? (fun p => p.1 == k)).map (fun p => p.2)

/-- One attempted match of `\d+\.\d+\.\d+\.\d+` at the head of `cs`. -/
def matchIpv4At (cs : List Char) : Option (List Char) :=
  let d1 := cs.takeWhile Char.isDigit
  let r1 := cs.dropWhile Char.isDigit
  match d1, r1 with
  | _ :: _, '.' :: r2 =>
    let d2 := r2.takeWhile Char.isDigit
    let r3 := r2.dropWhile Char.isDigit
    match d2, r3 with
    | _ :: _, '.' :: r4 =>
      let d3 := r4.takeWhile Char.isDigit
      let r5 := r4.dropWhile Char.isDigit
      match d3, r5 with
      | _ :: _, '.' :: r6 =>
        let d4 := r6.takeWhile Char.isDigit
        match d4 with
        | _ :: _ => some (d1 ++ '.' :: d2 ++ '.' :: d3 ++ '.' :: d4)
        | [] => none
      | _, _ => none
    | _, _ => none
  | _, _ => none

/-- One attempted match of `inet\s+(\d+\.\d+\.\d+\.\d+)` at the head. -/
def matchInetAt (cs : List Char) : Option String :=
  if startsL ['i', 'n', 'e', 't'] cs then
    let r := cs.drop 4
    if (r.takeWhile pySpace).isEmpty then none
    else (matchIpv4At (r.dropWhile pySpace)).map String.mk
  else none

/-- Python re.search for the word inet, whitespace, and a dotted-quad
address (the capture). -/
def searchInet : List Char → Option String
  | [] => none
  | c :: rest =>
    match matchInetAt (c :: rest) with
    | some ip => some ip
    | none => searchInet rest

/-- The `ip -4 addr show` parsing loop (lines 431-443), producing the
`ip_info` device-to-address dict. -/
def ipInfoScan : List String → Option String → List (String × String) →
    List (String × String)
  | [], _, acc => acc
  | line :: rest, current, acc =>
    if !(pyStarts line " ") then
      let parts := pySplitOn line ':' 
      if parts.length ≥ 2 then
        ipInfoScan rest (some (pyStrip (parts.getD 1 ""))) acc
      else ipInfoScan rest current acc
    else if pyContains line "inet " then
      match pyStrOpt current with
      | some cur =>
        match searchInet line.data with
        | some ip => ipInfoScan rest current (acc ++ [(cur, ip)])
        | none => ipInfoScan rest current acc
      | none => ipInfoScan rest current acc
    else ipInfoScan rest current acc

/-- Python `str.title()` as it acts on the ASCII device-type names. -/
def pyTitleAux : List Char → Bool → List Char
  | [], _ => []
  | c :: rest, prevAlpha =>
    if c.isAlpha then
      (if prevAlpha then c.toLower else c.toUpper) :: pyTitleAux rest true
    else c :: pyTitleAux rest false

def pyTitle (s : String) : String := String.mk (pyTitleAux s.data false)

/-- Everything after the final `/` of a path (`os.path.basename`). -/
def pyBasename (s : String) : String :=
  String.mk (((s.data.reverse.takeWhile (fun c => c ≠ '/'))).reverse)

/-- Python `name.startswith(tuple)`. -/
def startsAnyOf (name : String) (pres : List String) : Bool :=
  pres.any (fun p => pyStarts name p)

/-- Shallow embedding of `generate_interface_label` (hotspot_backend.py,
lines 784-847). -/
def generate_interface_label (i : IfaceInfo) : String :=
  let base :=
    if i.itype == "wifi" then
      if i.is_usb then "🔌 USB Wi-Fi Adapter"
      else if i.is_internal then "📶 Built-in Wi-Fi"
      else "📶 Wi-Fi"
    else if i.itype == "ethernet" then
      if i.is_usb then "🔌 USB Ethernet" else "🔗 Ethernet"
    else if i.itype == "vpn" || i.is_vpn then "🔒 VPN Tunnel"
    else if i.itype == "mobile" || i.is_mobile then "📱 Mobile Broadband"
    else if i.is_tethered then "📱 Phone Tethering"
    else if i.itype == "bridge" then "🌉 Bridge"
    else pyTitle i.itype
  let parts := [base]
  let parts := parts ++
    (if i.itype == "wifi" then
      let caps := (if i.ap_support then ["AP"] else []) ++
        (if i.supports_5ghz then ["5GHz"] else []) ++
        (if i.supports_concurrency then ["STA+AP"] else []) ++
        (if i.in_monitor_mode then ["⚠️Monitor"] else [])
      if !caps.isEmpty then ["[" ++ String.intercalate ", " caps ++ "]"] else []
    else [])
  let parts := parts ++ (if i.is_internet_source then ["🌐"] else [])
  let parts := parts ++
    (if i.connected && (pyStrOpt i.connection_name).isSome then
      ["→ " ++ connDisp (pyStrOpt i.connection_name)]
    else if i.has_ip then
      ["→ " ++ (match i.ip_address with | some ip => ip | none => "None")]
    else [])
  let parts := parts ++ ["(" ++ i.name ++ ")"]
  let parts := parts ++
    (if !i.issues.isEmpty then ["⚠️ " ++ String.intercalate ", " i.issues] else [])
  String.intercalate " " parts

/-- The record as first populated (lines 470-492). -/
def baseIface (ipInfo : List (String × String))
    (dev_name dev_type dev_state dev_connection : String) : IfaceInfo :=
  { name := dev_name, itype := dev_type, state := dev_state,
    connected := dev_state == "connected",
    connection_name :=
      if dev_connection != "" && dev_connection != "--" then some dev_connection
      else none,
    driver := none, is_usb := false, is_internal := false,
    is_vpn := false, is_mobile := false, is_tethered := false,
    is_bridge := false, ap_support := false, supports_5ghz := false,
    supports_concurrency := false, concurrency_channels := none,
    in_monitor_mode := false,
    has_ip := (dictGet dev_name ipInfo).isSome,
    ip_address := dictGet dev_name ipInfo,
    is_internet_source := false, label := dev_name, issues := [] }

/-- VPN-tunnel reclassification by name prefix (lines 494-498). -/
def classifyVpn (dev_name : String) (info : IfaceInfo) : IfaceInfo :=
  if startsAnyOf dev_name ["tun", "tap", "wg", "ppp", "vpn"] then
    { info with is_vpn := true, itype := "vpn" }
  else info

/-- Mobile-broadband reclassification (lines 500-503). -/
def classifyMobile (dev_name : String) (info : IfaceInfo) : IfaceInfo :=
  if startsAnyOf dev_name ["wwan", "wwp", "cdc", "mbim"] then
    { info with is_mobile := true, itype := "mobile" }
  else info

/-- USB-tethering flag (lines 505-507). -/
def classifyTether (dev_name : String) (info : IfaceInfo) : IfaceInfo :=
  if startsAnyOf dev_name ["usb", "enp0s20u", "enp0s2"] &&
      pyContains (String.mk (lowerL dev_name.data)) "usb" then
    { info with is_tethered := true }
  else info

/-- Bridge reclassification (lines 509-512). -/
def classifyBridge (dev_name : String) (info : IfaceInfo) : IfaceInfo :=
  if pyStarts dev_name "br" && !(pyStarts dev_name "br-") then
    { info with is_bridge := true, itype := "bridge" }
  else info

/-- Bus and driver resolution through the hardware-path symlinks (lines
514-538). -/
def applyBusInfo (env : InventoryEnv) (dev_name : String)
    (info : IfaceInfo) : IfaceInfo :=
  match env.devicePathOf dev_name with
  | some p =>
    let info := { info with
      is_usb := pyContains p "/usb",
      is_internal := pyContains p "/pci" && !pyContains p "/usb" }
    match env.driverPathOf dev_name with
    | some dp => { info with driver := some (pyBasename dp) }
    | none => info
  | none => info

/-- The wifi capability probes (lines 540-563). -/
def applyWifiProbes (env : InventoryEnv) (dev_type dev_name : String)
    (info : IfaceInfo) : IfaceInfo :=
  if dev_type == "wifi" then
    let apOk := env.apSupportOf dev_name
    let info := { info with
      ap_support := apOk,
      issues := info.issues ++ (if !apOk then ["No AP mode support"] else []) }
    let info := { info with supports_5ghz := env.fiveGhzOf dev_name }
    let sc := env.concurrencyOf dev_name
    let info := { info with
      supports_concurrency := sc.1,
      concurrency_channels := sc.2 }
    if env.monitorOf dev_name then
      { info with
        in_monitor_mode := true,
        issues := info.issues ++ ["In monitor mode"] }
    else info
  else info

/-- The connected-but-no-IP caveat (lines 565-567). -/
def applyIpIssue (info : IfaceInfo) : IfaceInfo :=
  if info.connected && !info.has_ip then
    { info with issues := info.issues ++ ["Connected but no IP"] }
  else info

/-- The label rendering step (line 570). -/
def applyLabel (info : IfaceInfo) : IfaceInfo :=
  { info with label := generate_interface_label info }

/-- Building one interface record from one nmcli device line (lines
453-572), as the composite of the steps above. -/
def buildIface (env : InventoryEnv) (ipInfo : List (String × String))
    (line : String) : Option IfaceInfo :=
  let parts := pySplitOn line ':'
  if parts.length < 3 then none
  else
    let dev_name := parts.getD 0 ""
    let dev_type := parts.getD 1 ""
    let dev_state := parts.getD 2 ""
    let dev_connection := if parts.length > 3 then parts.getD 3 "" else ""
    if startsAnyOf dev_name ["lo", "docker", "br-", "veth", "virbr", "p2p-", "vboxnet"] then
      none
    else if dev_type == "wifi-p2p" then none
    else
      some (applyLabel (applyIpIssue (applyWifiProbes env dev_type dev_name
        (applyBusInfo env dev_name (classifyBridge dev_name (classifyTether dev_name
          (classifyMobile dev_name (classifyVpn dev_name
            (baseIface ipInfo dev_name dev_type dev_state dev_connection)))))))))

/-- The default-route marking pass (lines 574-587): the first interface
whose name equals the routed device gets `is_internet_source := true`. -/
def markFirst (d : String) : List IfaceInfo → List IfaceInfo
  | [] => []
  | i :: rest =>
    if i.name == d then { i with is_internet_source := true } :: rest
    else i :: markFirst d rest

/-- Shallow embedding of `get_detailed_interfaces` (hotspot_backend.py,
lines 413-592). -/
def get_detailed_interfaces (env : InventoryEnv) : List IfaceInfo :=
  match env.nmcliLines with
  | none => []
  | some lines =>
    let ipInfo := ipInfoScan env.ipAddrLines none []
    let built := lines.filterMap (buildIface env ipInfo)
    match env.routeShowDefaultOut with
    | none => built
    | some out =>
      match searchDev out.data with
      | some d => markFirst d built
      | none => built

/-! ## Status file (`write_status`)

`write_status` builds a JSON object with exactly four fields and writes it
to `/tmp/hotspot_status.json` opened with mode `w`, which truncates:
whatever was there before is replaced by the single new record. -/

structure StatusRecord where
  timestamp : Nat
  status : String
  message : String
  is_error : Bool
  deriving DecidableEq

/-- The record `write_status` serialises (hotspot_backend.py, lines
1103-1116); `ts` stands for `time.time()`. -/
def write_status (ts : Nat) (status message : String)
    (is_error : Bool := false) : StatusRecord :=
  { timestamp := ts, status := status, message := message, is_error := is_error }

/-- The file update: mode `w` truncates, so the previous contents are
irrelevant and the file afterwards holds exactly the one new record. -/
def writeStatusFile (r : StatusRecord) (_prev : Option StatusRecord) :
    Option StatusRecord := some r

/-- Every `write_status` call in hotspot_backend.py, in source order, as
`(status, message, is_error)`: preflight failure (line 1654), the
5GHz-restriction notice (1748), hostapd startup failure (1793),
concurrent-mode active (1803), virtual-interface creation failure (1809),
missing hostapd/dnsmasq (1827), adapter without concurrency support (1836),
standard-mode active (1879).  Calls that pass no third argument use the
parameter default `False`.  `preflightErr`, `ssid` and `iface` abstract
the runtime-formatted message parts. -/
def statusCallSites (preflightErr ssid iface : String) :
    List (String × String × Bool) :=
  [("error", preflightErr, true),
   ("warning", "5GHz restriction detected. Attempting anyway...", false),
   ("error", "STA+AP mode failed. Try 2.4GHz or use second adapter.", true),
   ("active", "Hotspot \x27" ++ ssid ++ "\x27 active (STA+AP mode) - WiFi preserved", false),
   ("error", "Failed to create virtual AP interface", true),
   ("error", "hostapd/dnsmasq not installed - run installer", true),
   ("error", "Adapter doesn\x27t support concurrent mode", true),
   ("active", "Hotspot \x27" ++ ssid ++ "\x27 is now active on " ++ iface, false)]

/-! ## Concurrent-mode startup and teardown (`main`, lines 1706-1811)

The observable behaviour of the concurrent-mode branch of `main` is
modelled as a trace of actions plus a file-system state (the set of paths
that exist, threaded explicitly so the `os.path.exists` checks in
`stop_concurrent_mode` see the config files the branch wrote). -/

def HOSTAPD_CONF : String := "/tmp/hotspot_hostapd.conf"
def HOSTAPD_PIDF : String := "/tmp/hotspot_hostapd.pid"
def DNSMASQ_CONF : String := "/tmp/hotspot_dnsmasq.conf"
def DNSMASQ_PIDF : String := "/tmp/hotspot_dnsmasq.pid"
def DNSMASQ_LEASES : String := "/tmp/hotspot_dnsmasq.leases"
def PID_FILE : String := "/tmp/hotspot_backend.pid"

/-- Observable actions of the orchestrator: `run argv` is a subprocess
invocation, `killPid p` is `os.kill` on the pid stored in the pid file
`p`, `touch` is an `open(..., 'a')` creation, `status` is a
`write_status` call, and `exitCode` is `sys.exit`. -/
inductive Act where
  | run (argv : List String)
  | removeFile (path : String)
  | writeFile (path : String)
  | touch (path : String)
  | killPid (path : String)
  | status (s msg : String) (isErr : Bool)
  | exitCode (n : Nat)
  deriving DecidableEq

/-- Add a path to the file-system set. -/
def fsAdd (p : String) (fs : List String) : List String :=
  if fs.contains p then fs else p :: fs

/-- Shallow embedding of `stop_concurrent_mode` (hotspot_backend.py, lines
377-406): kill and remove each helper pid file that exists, `pkill` both
helpers, and remove whichever generated config/lease files exist.  The
intermediate file-system states `fs1`-`fs5` thread the `os.remove` calls
through the successive `os.path.exists` checks. -/
def stop_concurrent_mode (fs : List String) : List Act × List String :=
  let fs1 := if fs.contains HOSTAPD_PIDF then fs.erase HOSTAPD_PIDF else fs
  let fs2 := if fs1.contains DNSMASQ_PIDF then fs1.erase DNSMASQ_PIDF else fs1
  let fs3 := if fs2.contains HOSTAPD_CONF then fs2.erase HOSTAPD_CONF else fs2
  let fs4 := if fs3.contains DNSMASQ_CONF then fs3.erase DNSMASQ_CONF else fs3
  let fs5 := if fs4.contains DNSMASQ_LEASES then fs4.erase DNSMASQ_LEASES else fs4
  ((if fs.contains HOSTAPD_PIDF then
      [Act.killPid HOSTAPD_PIDF, Act.removeFile HOSTAPD_PIDF] else [])
   ++ [Act.run ["pkill", "-f", "hostapd.*hotspot"]]
   ++ (if fs1.contains DNSMASQ_PIDF then
      [Act.killPid DNSMASQ_PIDF, Act.removeFile DNSMASQ_PIDF] else [])
   ++ [Act.run ["pkill", "-f", "dnsmasq.*hotspot"]]
   ++ (if fs2.contains HOSTAPD_CONF then [Act.removeFile HOSTAPD_CONF] else [])
   ++ (if fs3.contains DNSMASQ_CONF then [Act.removeFile DNSMASQ_CONF] else [])
   ++ (if fs4.contains DNSMASQ_LEASES then [Act.removeFile DNSMASQ_LEASES] else []),
   fs5)

/-- Environment of the concurrent-mode branch: outcomes of the checks and
daemon launches it performs. -/
structure ConcEnv where
  ue : UpstreamEnv
  virtPreExists : Bool
  iwAddOk : Bool
  verifyOk : Bool
  staChannel : Nat
  phyName : String
  apAllowed : Bool
  hostapdStarts : Bool
  hostapdPidWritten : Bool
  virtExistsAtCleanup : Bool

/-- Shallow embedding of `delete_virtual_ap_interface` (lines 116-126);
`linkShows` is the `ip link show` existence probe. -/
def delete_virtual_ap_interface (linkShows : String → Bool)
    (physical_iface : String) : List Act × Bool :=
  let virtual_iface := physical_iface ++ "_ap"
  let acts := [Act.run ["ip", "link", "show", virtual_iface]]
  if linkShows virtual_iface then
    (acts ++ [Act.run ["iw", "dev", virtual_iface, "del"]], true)
  else (acts, false)

/-- Shallow embedding of `create_virtual_ap_interface` (lines 72-114). -/
def create_virtual_ap_interface (e : ConcEnv) (physical_iface : String) :
    List Act × Option String :=
  let virtual_iface := physical_iface ++ "_ap"
  let acts := [Act.run ["ip", "link", "show", virtual_iface]]
  let acts := acts ++
    (if e.virtPreExists then (delete_virtual_ap_interface (fun _ => true) physical_iface).1
     else [])
  let acts := acts ++
    [Act.run ["iw", "dev", physical_iface, "interface", "add", virtual_iface, "type", "__ap"]]
  if !e.iwAddOk then (acts, none)
  else
    let acts := acts ++ [Act.run ["ip", "link", "set", virtual_iface, "up"],
      Act.run ["ip", "link", "show", virtual_iface]]
    if e.verifyOk then (acts, some virtual_iface) else (acts, none)

/-- The subprocess invocations `get_upstream_interface` makes, matching the
early returns of the source (lines 1383-1422). -/
def upstreamQueryActs (ue : UpstreamEnv) (exclude_vpn : Bool) : List Act :=
  if !exclude_vpn then
    [Act.run ["ip", "route", "get", "1.1.1.1"]] ++
    (match (ue.routeGet "1.1.1.1").bind searchDevStr with
     | some _ => []
     | none =>
       [Act.run ["ip", "route", "get", "8.8.8.8"]] ++
       (match (ue.routeGet "8.8.8.8").bind searchDevStr with
        | some _ => []
        | none => [Act.run ["ip", "-4", "route", "show", "default"]]))
  else [Act.run ["ip", "-4", "route", "show", "default"]]

/-- The subnet hard-wired in `generate_dnsmasq_config` (line 274). -/
def dnsmasqSubnet : String := "192.168.45"

/-- Everything before the final dot of the gateway address (the rsplit
at line 366). -/
def rsplitDotHead (s : String) : String :=
  String.mk (((s.data.reverse.dropWhile (fun c => c ≠ '.')).drop 1).reverse)

/-- Shallow embedding of `setup_concurrent_ap_network` (lines 355-375). -/
def setup_concurrent_ap_network (iface gateway_ip upstream_iface : String) :
    List Act :=
  [Act.run ["ip", "addr", "flush", "dev", iface],
   Act.run ["ip", "addr", "add", gateway_ip ++ "/24", "dev", iface],
   Act.run ["ip", "link", "set", iface, "up"],
   Act.run ["sysctl", "-w", "net.ipv4.ip_forward=1"],
   Act.run ["iptables", "-t", "nat", "-A", "POSTROUTING",
     "-s", rsplitDotHead gateway_ip ++ ".0/24", "-o", upstream_iface, "-j", "MASQUERADE"],
   Act.run ["iptables", "-A", "FORWARD", "-i", iface, "-o", upstream_iface, "-j", "ACCEPT"],
   Act.run ["iptables", "-A", "FORWARD", "-i", upstream_iface, "-o", iface,
     "-m", "state", "--state", "RELATED,ESTABLISHED", "-j", "ACCEPT"],
   Act.run ["iptables", "-A", "FORWARD", "-p", "tcp", "--tcp-flags", "SYN,RST", "SYN",
     "-j", "TCPMSS", "--clamp-mss-to-pmtu"]]

/-- Shallow embedding of `start_hostapd` (lines 298-330): kill any prior
instance, launch the daemon, and on failure run the diagnostic foreground
invocation.  Returns its success along with the file-system state (the
daemon writes its pid file when `hostapdPidWritten`). -/
def start_hostapd (e : ConcEnv) (fs : List String) :
    List Act × List String × Bool :=
  let acts := [Act.run ["pkill", "-f", "hostapd.*hotspot"],
    Act.run ["hostapd", "-B", "-P", HOSTAPD_PIDF, HOSTAPD_CONF]]
  let fs := if e.hostapdStarts || e.hostapdPidWritten then fsAdd HOSTAPD_PIDF fs else fs
  if e.hostapdStarts then (acts, fs, true)
  else (acts ++ [Act.run ["hostapd", "-d", HOSTAPD_CONF]], fs, false)

/-- Shallow embedding of `start_dnsmasq` (lines 332-353). -/
def start_dnsmasq (fs : List String) : List Act × List String :=
  let acts := [Act.run ["pkill", "-f", "dnsmasq.*hotspot"],
    Act.touch DNSMASQ_LEASES,
    Act.run ["dnsmasq", "-C", DNSMASQ_CONF, "-x", DNSMASQ_PIDF]]
  (acts, fsAdd DNSMASQ_LEASES fs)

/-- Channel selection for concurrent mode (lines 1714-1738): with
multi-channel concurrency the band default (`get_best_channel`), else the
live channel of the radio via `get_wifi_channel` (one `iw dev info` query). -/
def channelSelection (e : ConcEnv) (physical_iface band : String)
    (concChannels : Nat) : List Act × Nat :=
  if concChannels ≥ 2 then ([], if band == "a" then 36 else 6)
  else ([Act.run ["iw", "dev", physical_iface, "info"]], e.staChannel)

/-- The check_5ghz_ap_allowed probe plus the regulatory-bypass attempt and the
warning-status write on restriction (lines 1740-1748; probe lines
172-220). -/
def regulatoryCheckActs (e : ConcEnv) (physical_iface : String)
    (channel : Nat) : List Act :=
  if channel ≤ 14 then []
  else
    let probeActs := [Act.run ["iw", "dev", physical_iface, "info"],
      Act.run ["iw", "phy", e.phyName, "channels"]]
    if e.apAllowed then probeActs
    else probeActs ++ [Act.run ["iw", "reg", "set", "US"],
      Act.status "warning" "5GHz restriction detected. Attempting anyway..." false]

/-- Shallow embedding of the STA+AP concurrent-mode branch of `main`
(hotspot_backend.py, lines 1706-1811): channel selection, regulatory
check, virtual-interface creation, config generation, network setup,
daemon startup, and — on hostapd failure — the teardown path.  Returns the
action trace, the final file-system state, and the exit code (`none` when
the branch proceeds to the monitoring loop).  `ts` stands for the wall
clock fed to `write_status`; `password`, `dns` and `hidden` only shape the
generated config file contents and do not change the trace. -/
def concurrent_mode_start (e : ConcEnv) (physical_iface ssid : String)
    (band : String) (exclude_vpn : Bool) (concChannels : Nat)
    (fs : List String) : List Act × List String × Option Nat :=
  let chPair := channelSelection e physical_iface band concChannels
  let channel := chPair.2
  let regActs := regulatoryCheckActs e physical_iface channel
  let createPair := create_virtual_ap_interface e physical_iface
  let acts := chPair.1 ++ regActs ++ createPair.1
  match createPair.2 with
  | none =>
    let acts := acts ++
      [Act.status "error" "Failed to create virtual AP interface" true]
    let rm :=
      if fs.contains PID_FILE then (acts ++ [Act.removeFile PID_FILE], fs.erase PID_FILE)
      else (acts, fs)
    (rm.1 ++ [Act.exitCode 1], rm.2, some 1)
  | some virtual_iface =>
    let acts := acts ++ [Act.run ["nmcli", "device", "set", virtual_iface, "managed", "no"]]
    let acts := acts ++ upstreamQueryActs e.ue exclude_vpn
    let upstream := (get_upstream_interface e.ue exclude_vpn).getD physical_iface
    let acts := acts ++ [Act.writeFile HOSTAPD_CONF]
    let fs := fsAdd HOSTAPD_CONF fs
    let acts := acts ++ [Act.writeFile DNSMASQ_CONF]
    let fs := fsAdd DNSMASQ_CONF fs
    let gateway_ip := dnsmasqSubnet ++ ".1"
    let acts := acts ++ setup_concurrent_ap_network virtual_iface gateway_ip upstream
    let hres := start_hostapd e fs
    let acts := acts ++ hres.1
    let fs := hres.2.1
    if !hres.2.2 then
      let sres := stop_concurrent_mode fs
      let dres := delete_virtual_ap_interface (fun _ => e.virtExistsAtCleanup) physical_iface
      let acts := acts ++ sres.1 ++ dres.1 ++
        [Act.status "error" "STA+AP mode failed. Try 2.4GHz or use second adapter." true]
      let fs := sres.2
      let rm :=
        if fs.contains PID_FILE then (acts ++ [Act.removeFile PID_FILE], fs.erase PID_FILE)
        else (acts, fs)
      (rm.1 ++ [Act.exitCode 1], rm.2, some 1)
    else
      let dres := start_dnsmasq fs
      let acts := acts ++ dres.1 ++
        [Act.status "active" ("Hotspot \x27" ++ ssid ++ "\x27 active (STA+AP mode) - WiFi preserved") false]
      (acts, dres.2, none)

/-! ## Helper lemmas -/

theorem head?_filter_eq_find? (p : α → Bool) (l : List α) :
    (l.filter p).head? = l.find? p := by
  induction l with
  | nil => rfl
  | cons a t ih =>
    by_cases h : p a = true
    · simp [List.filter_cons, List.find?, h]
    · simp only [Bool.not_eq_true] at h
      simp [List.filter_cons, List.find?, h, ih]

theorem filter_nil_of_all_not {p : α → Bool} {l : List α}
    (h : ∀ a ∈ l, p a = false) : l.filter p = [] := by
  rw [List.filter_eq_nil_iff]
  intro a ha
  simp [h a ha]

/-! ## Claim C6 -/

/-- C6: In exclude-VPN mode the upstream resolver collects every device
named in a default route (`defaultRouteCandidates`); if some candidate
does not carry a VPN name prefix (tun/tap/wg/ppp) the resolver returns
the first such candidate; if every candidate is VPN-named it returns the
first unfiltered candidate; and with no default-route candidates at all it
returns nothing.  (The embedding is total, so no error is ever raised.) -/
theorem get_upstream_exclude_vpn_spec (env : UpstreamEnv) :
    (defaultRouteCandidates (env.routeShowDefault.getD []) = [] →
      get_upstream_interface env true = none) ∧
    ((defaultRouteCandidates (env.routeShowDefault.getD [])).any
        (fun d => !isVpnName d) = true →
      get_upstream_interface env true =
        (defaultRouteCandidates (env.routeShowDefault.getD [])).find?
          (fun d => !isVpnName d)) ∧
    ((defaultRouteCandidates (env.routeShowDefault.getD [])).all isVpnName = true →
      get_upstream_interface env true =
        (defaultRouteCandidates (env.routeShowDefault.getD [])).head?) := by
  refine ⟨fun h => ?_, fun h => ?_, fun h => ?_⟩
  · simp [get_upstream_interface, h]
  · rw [get_upstream_interface]
    simp only [Bool.not_true, if_false]
    rw [← head?_filter_eq_find?]
    cases hf : (defaultRouteCandidates (env.routeShowDefault.getD [])).filter
        (fun d => !isVpnName d) with
    | nil =>
      exfalso
      rw [List.filter_eq_nil_iff] at hf
      simp only [List.any_eq_true] at h
      obtain ⟨d, hd, hp⟩ := h
      exact (hf d hd) hp
    | cons d t => simp [hf]
  · have hnil : (defaultRouteCandidates (env.routeShowDefault.getD [])).filter
        (fun d => !isVpnName d) = [] := by
      refine filter_nil_of_all_not (fun a ha => ?_)
      simp only [List.all_eq_true] at h
      simp [h a ha]
    rw [get_upstream_interface]
    simp only [Bool.not_true, if_false]
    rw [hnil]
    cases hc : defaultRouteCandidates (env.routeShowDefault.getD []) with
    | nil => simp
    | cons d t => simp

/-- Concrete run for C6: two default routes, the first via a VPN tunnel;
the resolver skips the tunnel and returns the wired device. -/
theorem get_upstream_exclude_vpn_spec_witness :
    get_upstream_interface
      ⟨fun _ => none,
       some ["default via 10.64.0.1 dev tun0 proto static",
             "default via 192.168.1.1 dev eth0 proto dhcp metric 100"]⟩ true =
      some "eth0" := by
  have h := (get_upstream_exclude_vpn_spec
    ⟨fun _ => none,
     some ["default via 10.64.0.1 dev tun0 proto static",
           "default via 192.168.1.1 dev eth0 proto dhcp metric 100"]⟩).2.1
    (by decide)
  rw [h]
  decide

/-! ### Firewall characterisation -/

theorem foldl_insForward_eq (f : String → Rule) (l : List String)
    (fw : FirewallState) :
    l.foldl (fun fw mac => insForward (f mac) fw) fw =
      { fw with filterForward := (l.reverse.map f) ++ fw.filterForward } := by
  induction l generalizing fw with
  | nil => simp
  | cons a t ih =>
    rw [List.foldl_cons, ih]
    simp [insForward]

/-- The full effect of one `update_firewall` pass: the three chains it owns
and the FORWARD policy are fully determined by the arguments, independent
of the starting state. -/
theorem update_firewall_eq (h u m : String) (macs : List String)
    (fw : FirewallState) :
    update_firewall h u m macs fw =
      { natPostrouting := [Rule.masquerade u],
        filterForward :=
          if m = "allow" then
            (macs.reverse.map (Rule.macAccept h u)) ++
              [Rule.acceptInOut u h, Rule.acceptEstablished, Rule.dropIn h]
          else if m = "block" then
            (macs.reverse.map (Rule.macDrop h u)) ++
              [Rule.acceptInOut h u, Rule.acceptInOut u h, Rule.acceptEstablished]
          else [Rule.acceptInOut u h, Rule.acceptEstablished],
        mangleForward := [Rule.clampMss],
        forwardPolicy := "ACCEPT" } := by
  unfold update_firewall
  by_cases hm : m = "allow"
  · simp only [hm, if_true, ite_true, if_pos]
    simp only [foldl_insForward_eq]
    simp [insForward, appForward]
  · by_cases hb : m = "block"
    · simp only [hm, hb, if_false, ite_false, if_true, ite_true, if_neg, if_pos,
        reduceIte]
      simp only [foldl_insForward_eq]
      simp [insForward]
    · simp only [hm, hb, if_false, ite_false, if_neg, reduceIte]
      simp [insForward]

theorem evalForward_append_drop {l₁ l₂ : List Rule} {p : Packet}
    (hex : ∃ r ∈ l₁, ruleMatches p r = true)
    (hall : ∀ r ∈ l₁, ruleMatches p r = true → ruleVerdict r = false) :
    evalForward (l₁ ++ l₂) p = some false := by
  induction l₁ with
  | nil => obtain ⟨r, hr, _⟩ := hex; exact absurd hr (List.not_mem_nil r)
  | cons a t ih =>
    cases ha : ruleMatches p a with
    | true =>
      have hv := hall a (List.mem_cons_self a t) ha
      simp [evalForward, ha, hv]
    | false =>
      rw [List.cons_append]
      simp only [evalForward, ha, Bool.false_eq_true, if_false]
      refine ih ?_ (fun r hr h => hall r (List.mem_cons_of_mem a hr) h)
      obtain ⟨r, hr, hmr⟩ := hex
      rcases List.mem_cons.mp hr with hra | hrt
      · subst hra; rw [ha] at hmr; exact absurd hmr (by simp)
      · exact ⟨r, hrt, hmr⟩

theorem evalForward_append_skip {l₁ l₂ : List Rule} {p : Packet}
    (hall : ∀ r ∈ l₁, ruleMatches p r = false) :
    evalForward (l₁ ++ l₂) p = evalForward l₂ p := by
  induction l₁ with
  | nil => simp
  | cons a t ih =>
    have ha := hall a (List.mem_cons_self a t)
    rw [List.cons_append]
    simp only [evalForward, ha, Bool.false_eq_true, if_false]
    exact ih (fun r hr => hall r (List.mem_cons_of_mem a hr))

/-! ## Claim C7 -/

/-- C7: After one rule-programming pass, every explicit per-address rule
precedes the default rule for hotspot-originated traffic — in Block mode
the per-address DROP of each listed address precedes the general
hotspot→upstream ACCEPT, and in Allow mode the per-address ACCEPT of each
listed address precedes the default DROP for hotspot ingress.
Consequently, under first-match evaluation, a listed address is dropped in
Block mode and an unlisted address (on a fresh, non-established flow) is
dropped in Allow mode. -/
theorem mac_policy_rule_order (h u : String) (macs : List String)
    (fw : FirewallState) (hne : h ≠ u) :
    (∀ mac ∈ macs, ∃ l₁ l₂,
      (update_firewall h u "block" macs fw).filterForward =
        l₁ ++ Rule.acceptInOut h u :: l₂ ∧ Rule.macDrop h u mac ∈ l₁) ∧
    (∀ mac ∈ macs, ∃ l₁ l₂,
      (update_firewall h u "allow" macs fw).filterForward =
        l₁ ++ Rule.dropIn h :: l₂ ∧ Rule.macAccept h u mac ∈ l₁) ∧
    (∀ p : Packet, p.inIface = h → p.outIface = u → p.srcMac ∈ macs →
      evalForward (update_firewall h u "block" macs fw).filterForward p =
        some false) ∧
    (∀ p : Packet, p.inIface = h → p.outIface = u → p.srcMac ∉ macs →
      p.established = false →
      evalForward (update_firewall h u "allow" macs fw).filterForward p =
        some false) := by
  have hblock := congrArg FirewallState.filterForward
    (update_firewall_eq h u "block" macs fw)
  have hallow := congrArg FirewallState.filterForward
    (update_firewall_eq h u "allow" macs fw)
  rw [if_neg (by decide), if_pos rfl] at hblock
  rw [if_pos rfl] at hallow
  refine ⟨?_, ?_, ?_, ?_⟩
  · intro mac hm
    refine ⟨macs.reverse.map (Rule.macDrop h u),
      [Rule.acceptInOut u h, Rule.acceptEstablished], by simpa using hblock, ?_⟩
    exact List.mem_map_of_mem _ (List.mem_reverse.mpr hm)
  · intro mac hm
    refine ⟨macs.reverse.map (Rule.macAccept h u) ++
      [Rule.acceptInOut u h, Rule.acceptEstablished], [], ?_, ?_⟩
    · simpa using hallow
    · exact List.mem_append_left _ (List.mem_map_of_mem _ (List.mem_reverse.mpr hm))
  · intro p hin hout hmac
    rw [hblock]
    refine evalForward_append_drop ⟨Rule.macDrop h u p.srcMac,
      List.mem_map_of_mem _ (List.mem_reverse.mpr hmac), ?_⟩ ?_
    · simp [ruleMatches, hin, hout]
    · intro r hr hmr
      obtain ⟨m, _, rfl⟩ := List.mem_map.mp hr
      rfl
  · intro p hin hout hmac hest
    rw [hallow]
    have hskip : ∀ r ∈ macs.reverse.map (Rule.macAccept h u),
        ruleMatches p r = false := by
      intro r hr
      obtain ⟨m, hmem, rfl⟩ := List.mem_map.mp hr
      have : p.srcMac ≠ m := fun hcontra => hmac (hcontra ▸ List.mem_reverse.mp hmem)
      simp [ruleMatches, this]
    rw [evalForward_append_skip hskip]
    simp [evalForward, ruleMatches, ruleVerdict, hin, hout, hest, hne, Ne.symm hne]

/-- Concrete run for C7: two listed addresses, hotspot `wlan0`, upstream
`eth0`; both rule-order conjuncts and both evaluation conjuncts hold on a
concrete packet. -/
theorem mac_policy_rule_order_witness :
    evalForward (update_firewall "wlan0" "eth0" "block"
        ["aa:bb:cc:dd:ee:ff", "11:22:33:44:55:66"] ⟨[], [], [], "ACCEPT"⟩).filterForward
      ⟨"wlan0", "eth0", "11:22:33:44:55:66", false⟩ = some false ∧
    evalForward (update_firewall "wlan0" "eth0" "allow"
        ["aa:bb:cc:dd:ee:ff"] ⟨[], [], [], "ACCEPT"⟩).filterForward
      ⟨"wlan0", "eth0", "11:22:33:44:55:66", false⟩ = some false := by
  constructor
  · exact (mac_policy_rule_order "wlan0" "eth0"
      ["aa:bb:cc:dd:ee:ff", "11:22:33:44:55:66"] ⟨[], [], [], "ACCEPT"⟩
      (by decide)).2.2.1 ⟨"wlan0", "eth0", "11:22:33:44:55:66", false⟩
      rfl rfl (by decide)
  · exact (mac_policy_rule_order "wlan0" "eth0" ["aa:bb:cc:dd:ee:ff"]
      ⟨[], [], [], "ACCEPT"⟩ (by decide)).2.2.2
      ⟨"wlan0", "eth0", "11:22:33:44:55:66", false⟩ rfl rfl (by decide) rfl

/-! ## Claim C5 -/

/-- C5 counterexample: in Concurrent mode (`usingConcurrency = true`) a
monitor-loop iteration that resolves a fresh upstream (`eth0`, different
from both the previously programmed `tun0` and the hotspot interface
`wlan0_ap`) updates the tracked upstream but leaves the firewall rules
untouched, even though reprogramming would have changed them — so the
rules are *not* reprogrammed in every operating mode. -/
theorem monitor_step_concurrent_counterexample :
    (monitorStep true "wlan0_ap" "block" [] (some "eth0")
        ⟨some "tun0", ⟨[], [], [], "ACCEPT"⟩⟩).currentUpstream = some "eth0" ∧
    (monitorStep true "wlan0_ap" "block" [] (some "eth0")
        ⟨some "tun0", ⟨[], [], [], "ACCEPT"⟩⟩).fw = ⟨[], [], [], "ACCEPT"⟩ ∧
    update_firewall "wlan0_ap" "eth0" "block" [] ⟨[], [], [], "ACCEPT"⟩ ≠
      ⟨[], [], [], "ACCEPT"⟩ := by
  refine ⟨rfl, rfl, ?_⟩
  rw [update_firewall_eq]
  intro hcontra
  exact absurd (congrArg FirewallState.natPostrouting hcontra) (by simp)

/-- C5 (amended): each iteration re-resolves the upstream; when the
resolved upstream differs from the previously programmed one and from the
hotspot interface, the non-concurrent modes (Managed / Dual-Adapter)
reprogram the NAT/forwarding/MSS-clamp/MAC-filter rules for the new
upstream, while Concurrent mode only records the new upstream without
reprogramming.  Reprogramming is flush-then-reinstall: the resulting rule
set is independent of the prior firewall state (hence idempotent and
independent of how many upstream flips preceded it). -/
theorem monitor_step_upstream_change (conc : Bool) (hIf m u : String)
    (macs : List String) (st : LoopState)
    (hchg : some u ≠ st.currentUpstream) (hne : u ≠ hIf) :
    monitorStep conc hIf m macs (some u) st =
      { currentUpstream := some u,
        fw := if conc then st.fw else update_firewall hIf u m macs st.fw } ∧
    (∀ fw₁ fw₂ : FirewallState,
      update_firewall hIf u m macs fw₁ = update_firewall hIf u m macs fw₂) ∧
    update_firewall hIf u m macs (update_firewall hIf u m macs st.fw) =
      update_firewall hIf u m macs st.fw := by
  refine ⟨?_, ?_, ?_⟩
  · cases conc <;> simp [monitorStep, hchg, hne]
  · intro fw₁ fw₂
    rw [update_firewall_eq, update_firewall_eq]
  · rw [update_firewall_eq, update_firewall_eq]

/-- Concrete run for C5 (amended): a managed-mode step with upstream
flipping from `tun0` to `eth0` installs exactly the canonical rule set for
`eth0`, and a second application changes nothing. -/
theorem monitor_step_upstream_change_witness :
    monitorStep false "wlan0" "block" [] (some "eth0")
        ⟨some "tun0", ⟨[], [], [], "ACCEPT"⟩⟩ =
      { currentUpstream := some "eth0",
        fw := update_firewall "wlan0" "eth0" "block" [] ⟨[], [], [], "ACCEPT"⟩ } ∧
    update_firewall "wlan0" "eth0" "block" []
        (update_firewall "wlan0" "eth0" "block" [] ⟨[], [], [], "ACCEPT"⟩) =
      update_firewall "wlan0" "eth0" "block" [] ⟨[], [], [], "ACCEPT"⟩ := by
  have h := monitor_step_upstream_change false "wlan0" "block" "eth0" []
    ⟨some "tun0", ⟨[], [], [], "ACCEPT"⟩⟩ (by decide) (by decide)
  exact ⟨h.1, h.2.2⟩

/-! ## Claim C4 -/

/-- A phy whose advertised combinations keep the managed and AP roles in
two *separate* combination entries (the first allows many managed
interfaces, the second a single AP), as `iw <phy> info` prints them. -/
def phyInfoSplitCombos : List String :=
  ["Wiphy phy0",
   "\tvalid interface combinations:",
   "\t\t * #\x7b managed \x7d <= 2048,",
   "\t\t   total <= 2048, #channels <= 1",
   "\t\t * #\x7b AP \x7d <= 1,",
   "\t\t   total <= 1, #channels <= 1",
   "\tSupported commands:"]

/-- The matching `iw dev wlan0 info` output. -/
def devInfoSplitCombos : List String :=
  ["Interface wlan0", "\tifindex 3", "\twiphy 0", "\ttype managed"]

/-- C4 (bug evidence): on a radio whose managed and AP roles are
advertised only in two separate combinations — so that no single
combination simultaneously permits both roles (`singleComboSupports` is
false) — the probe still reports concurrency as supported, because its
parser concatenates every line of the combinations section into one string
before looking for the managed marker, the AP marker, and the total count.
This contradicts both the claim and the doc comment of the probe itself ("both
managed (STA) and AP in the same combination"). -/
theorem concurrency_probe_conflates_combinations :
    check_sta_ap_concurrency (some devInfoSplitCombos)
      (fun s => if s = "phy0" then some phyInfoSplitCombos else none) =
      (true, some 1) ∧
    singleComboSupports phyInfoSplitCombos = false ∧
    check_sta_ap_concurrency none
      (fun s => if s = "phy0" then some phyInfoSplitCombos else none) =
      (false, none) := by
  refine ⟨by decide, by decide, rfl⟩

/-! ## Claim C8 -/

theorem classifyVpn_src (n : String) (i : IfaceInfo) :
    (classifyVpn n i).is_internet_source = i.is_internet_source := by
  unfold classifyVpn; split <;> rfl

theorem classifyMobile_src (n : String) (i : IfaceInfo) :
    (classifyMobile n i).is_internet_source = i.is_internet_source := by
  unfold classifyMobile; split <;> rfl

theorem classifyTether_src (n : String) (i : IfaceInfo) :
    (classifyTether n i).is_internet_source = i.is_internet_source := by
  unfold classifyTether; split <;> rfl

theorem classifyBridge_src (n : String) (i : IfaceInfo) :
    (classifyBridge n i).is_internet_source = i.is_internet_source := by
  unfold classifyBridge; split <;> rfl

theorem applyBusInfo_src (env : InventoryEnv) (n : String) (i : IfaceInfo) :
    (applyBusInfo env n i).is_internet_source = i.is_internet_source := by
  unfold applyBusInfo
  split
  all_goals first
    | rfl
    | (dsimp only; split <;> rfl)

theorem applyWifiProbes_src (env : InventoryEnv) (t n : String) (i : IfaceInfo) :
    (applyWifiProbes env t n i).is_internet_source = i.is_internet_source := by
  unfold applyWifiProbes
  split
  all_goals first
    | rfl
    | (dsimp only; split <;> rfl)

theorem applyIpIssue_src (i : IfaceInfo) :
    (applyIpIssue i).is_internet_source = i.is_internet_source := by
  unfold applyIpIssue; split <;> rfl

theorem applyLabel_src (i : IfaceInfo) :
    (applyLabel i).is_internet_source = i.is_internet_source := rfl

/-- Every snapshot built from an nmcli line starts with
`is_internet_source = false`; only the later marking pass can set it. -/
theorem buildIface_not_internet_source (env : InventoryEnv)
    (ipInfo : List (String × String)) (line : String) (i : IfaceInfo)
    (h : buildIface env ipInfo line = some i) : i.is_internet_source = false := by
  unfold buildIface at h
  dsimp only at h
  repeat' split at h
  all_goals
    first
      | exact Option.noConfusion h
      | (injection h with h; subst h;
         simp only [applyLabel_src, applyIpIssue_src, applyWifiProbes_src,
           applyBusInfo_src, classifyBridge_src, classifyTether_src,
           classifyMobile_src, classifyVpn_src]
         rfl)

/-- Membership in the marking pass: an element either was in the input
list untouched, or is the first name-matching element with the flag set. -/
theorem mem_markFirst {d : String} {l : List IfaceInfo} {i : IfaceInfo}
    (hi : i ∈ markFirst d l) :
    i ∈ l ∨ ∃ j ∈ l, j.name = d ∧ i = { j with is_internet_source := true } := by
  induction l with
  | nil => simp [markFirst] at hi
  | cons a t ih =>
    rw [markFirst] at hi
    by_cases ha : a.name == d
    · rw [if_pos ha] at hi
      rcases List.mem_cons.mp hi with hia | hit
      · exact Or.inr ⟨a, List.mem_cons_self a t, by simpa using ha, hia⟩
      · exact Or.inl (List.mem_cons_of_mem a hit)
    · rw [if_neg ha] at hi
      rcases List.mem_cons.mp hi with hia | hit
      · exact Or.inl (hia ▸ List.mem_cons_self a t)
      · rcases ih hit with h1 | ⟨j, hj, hjd, hji⟩
        · exact Or.inl (List.mem_cons_of_mem a h1)
        · exact Or.inr ⟨j, List.mem_cons_of_mem a hj, hjd, hji⟩

/-- C8 (amended): an inventory snapshot carries `is_internet_source = true`
only when its name is exactly the device of the parsed default route — the
marking is independent of the `connected` flag, so
`connected = false → is_internet_source = false` does *not* hold in
general (see the counterexample). -/
theorem inventory_internet_source_only_route_dev (env : InventoryEnv)
    (i : IfaceInfo) (hi : i ∈ get_detailed_interfaces env)
    (hsrc : i.is_internet_source = true) :
    env.routeShowDefaultOut.bind (fun out => searchDev out.data) = some i.name := by
  unfold get_detailed_interfaces at hi
  cases hnm : env.nmcliLines with
  | none => rw [hnm] at hi; exact absurd hi (List.not_mem_nil i)
  | some lines =>
    rw [hnm] at hi
    dsimp only at hi
    have hbuilt : ∀ j ∈ lines.filterMap
        (buildIface env (ipInfoScan env.ipAddrLines none [])),
        j.is_internet_source = false := by
      intro j hj
      obtain ⟨line, _, hline⟩ := List.mem_filterMap.mp hj
      exact buildIface_not_internet_source env _ line j hline
    cases hroute : env.routeShowDefaultOut with
    | none =>
      rw [hroute] at hi
      dsimp only at hi
      exact absurd hsrc (by simp [hbuilt i hi])
    | some out =>
      rw [hroute] at hi
      dsimp only at hi
      cases hdev : searchDev out.data with
      | none =>
        rw [hdev] at hi
        dsimp only at hi
        exact absurd hsrc (by simp [hbuilt i hi])
      | some d =>
        rw [hdev] at hi
        dsimp only at hi
        rcases mem_markFirst hi with h1 | ⟨j, _, hjd, hji⟩
        · exact absurd hsrc (by simp [hbuilt i h1])
        · show searchDev out.data = some i.name
          rw [hdev, hji]
          subst hjd
          rfl

/-- The inventory environment of the counterexample: NetworkManager
reports a `tun0` tunnel in state `unmanaged` (so `connected = false`), and
the kernel default route runs through `tun0`. -/
def envSplitTunnel : InventoryEnv :=
  { nmcliLines := some ["tun0:tun:unmanaged:--"],
    ipAddrLines := [],
    devicePathOf := fun _ => none,
    driverPathOf := fun _ => none,
    apSupportOf := fun _ => true,
    fiveGhzOf := fun _ => false,
    concurrencyOf := fun _ => (false, none),
    monitorOf := fun _ => false,
    routeShowDefaultOut := some "default via 10.8.0.1 dev tun0" }

/-- C8 counterexample: the inventory produced for `envSplitTunnel`
contains a snapshot with `connected = false` and
`is_internet_source = true` — a disconnected (unmanaged) interface is
marked as the default-route carrier, refuting the claimed invariant. -/
theorem inventory_disconnected_internet_source_counterexample :
    (get_detailed_interfaces envSplitTunnel).any
      (fun i => !i.connected && i.is_internet_source) = true := by decide

/-- The single snapshot `get_detailed_interfaces envSplitTunnel` yields:
an unmanaged (hence not connected) tunnel that nonetheless carries the
internet-source mark. -/
def tunSnapshot : IfaceInfo :=
  { name := "tun0", itype := "vpn", state := "unmanaged", connected := false,
    connection_name := none, driver := none, is_usb := false,
    is_internal := false, is_vpn := true, is_mobile := false,
    is_tethered := false, is_bridge := false, ap_support := false,
    supports_5ghz := false, supports_concurrency := false,
    concurrency_channels := none, in_monitor_mode := false, has_ip := false,
    ip_address := none, is_internet_source := true,
    label := "🔒 VPN Tunnel (tun0)", issues := [] }

/-- Concrete run for C8 (amended): the `tun0` snapshot of the
counterexample environment is internet-source-marked, and the parsed
default-route device is exactly its name. -/
theorem inventory_internet_source_only_route_dev_witness :
    (envSplitTunnel.routeShowDefaultOut.bind (fun out => searchDev out.data)) =
      some "tun0" := by
  exact inventory_internet_source_only_route_dev envSplitTunnel tunSnapshot
    (by decide) (by rfl)

/-! ## Claim C9 -/

/-- C9 counterexample: the write of the 5GHz-restriction notice
(hotspot_backend.py, line 1748) stores the status string `"warning"`,
which is neither `"active"` nor `"error"` — so the status field is not
always one of those two values. -/
theorem status_warning_write_counterexample :
    ∃ c ∈ statusCallSites "preflight failed" "MintHotspot" "wlan0",
      c.1 ≠ "active" ∧ c.1 ≠ "error" := by decide

/-- C9 (amended): every status-file write overwrites the file with a
single record of exactly the four fields timestamp/status/message/is_error
(the `StatusRecord` type, written with `open(..., 'w')`), the status value
is always `"active"`, `"error"` or `"warning"` (the 5GHz-restriction
notice), `is_error` is true exactly when the status is `"error"`, and a
call without an explicit `is_error` stores `false`. -/
theorem status_file_writes_spec (pf ssid iface : String) :
    (∀ (r : StatusRecord) (prev : Option StatusRecord),
      writeStatusFile r prev = some r) ∧
    (∀ c ∈ statusCallSites pf ssid iface,
      (c.1 = "active" ∨ c.1 = "error" ∨ c.1 = "warning") ∧
      (c.2.2 = true ↔ c.1 = "error")) ∧
    (∀ (ts : Nat) (status message : String),
      write_status ts status message =
        { timestamp := ts, status := status, message := message,
          is_error := false }) := by
  refine ⟨fun r prev => rfl, ?_, fun ts status message => rfl⟩
  intro c hc
  simp only [statusCallSites, List.mem_cons, List.not_mem_nil, or_false] at hc
  rcases hc with rfl | rfl | rfl | rfl | rfl | rfl | rfl | rfl <;>
    exact ⟨by simp, by simp⟩

/-- Concrete run for C9 (amended): the 5GHz-notice call site carries an
allowed status value and a consistent `is_error` flag. -/
theorem status_file_writes_spec_witness :
    ("warning" = "active" ∨ "warning" = "error" ∨ "warning" = "warning") ∧
    ((false = true) ↔ ("warning" : String) = "error") :=
  (status_file_writes_spec "preflight failed" "MintHotspot" "wlan0").2.1
    ("warning", "5GHz restriction detected. Attempting anyway...", false)
    (by decide)

/-! ## Claim C3 -/

theorem preflightFinalize_ok (E W : List String) :
    (preflightFinalize E W).ok = true ↔ (preflightFinalize E W).errors = [] := by
  unfold preflightFinalize
  split <;> rename_i h <;> simp_all

theorem preflightTail_ok_iff (env : PreflightEnv)
    (w e mo te : List IfaceInfo) (tinfo : IfaceInfo) (target : String)
    (ssid password : Option String) (ev fsi : Bool) (band : String)
    (errors warnings : List String) :
    (preflightTail env w e mo te tinfo target ssid password ev fsi band
        errors warnings).ok = true ↔
    (preflightTail env w e mo te tinfo target ssid password ev fsi band
        errors warnings).errors = [] := by
  unfold preflightTail
  exact preflightFinalize_ok _ _

/-- C3: For every preflight invocation, the report succeeds exactly when
its accumulated error list is empty; warnings play no role in the
ok/fail outcome. -/
theorem preflight_ok_iff_no_errors (env : PreflightEnv)
    (interface ssid password : Option String) (ev fsi : Bool)
    (band : String) :
    (preflight_checks env interface ssid password ev fsi band).ok = true ↔
    (preflight_checks env interface ssid password ev fsi band).errors = [] := by
  unfold preflight_checks
  dsimp only
  repeat' split
  all_goals
    first
      | exact preflightTail_ok_iff _ _ _ _ _ _ _ _ _ _ _ _ _ _
      | simp

/-! ## Claim C1 -/

/-- C1: With a single Wi-Fi interface that is connected, carries the
internet, supports no STA+AP concurrency, with no alternative internet
source (the inventory holds nothing but this radio): without
`force_single_interface` preflight fails with exactly the fatal
BLOCKED error (which carries the remediation suggestions), and with the
flag preflight succeeds — the check contributes only the FORCED warning
and no error, so with the other checks benign the report is ok. -/
theorem preflight_single_radio_disconnect_risk (t : IfaceInfo)
    (env : PreflightEnv) (ev : Bool)
    (hifc : env.interfaces = [t])
    (hty : t.itype = "wifi") (hconn : t.connected = true)
    (hsrc : t.is_internet_source = true)
    (hconc : t.supports_concurrency = false)
    (hmon : t.in_monitor_mode = false)
    (hap : t.ap_support = true)
    (hmob : t.is_mobile = false) (hteth : t.is_tethered = false)
    (hname : t.name.isEmpty = false)
    (hnm : env.nmCheck = some true) (hrf : env.rfkillOk = true)
    (hstate : env.ifaceState t.name = (true, none)) :
    ((preflight_checks env (some t.name) none none ev false "bg").ok = false ∧
     (preflight_checks env (some t.name) none none ev false "bg").errors =
       [msgBlocked t.name (connDisp t.connection_name)]) ∧
    ((preflight_checks env (some t.name) none none ev true "bg").ok = true ∧
     (preflight_checks env (some t.name) none none ev true "bg").errors = [] ∧
     msgForced t.name (connDisp t.connection_name) ∈
       (preflight_checks env (some t.name) none none ev true "bg").warnings) := by
  simp [preflight_checks, preflightTail, busyCheck, preflightFinalize, pyStrOpt,
    hifc, hty, hconn, hsrc, hconc, hmon, hap, hmob, hteth, hname, hnm, hrf, hstate]
  left
  split <;> split <;> simp

/-- A concrete single connected radio for instantiating the scenario. -/
def soloRadio : IfaceInfo :=
  { name := "wlan0", itype := "wifi", state := "connected", connected := true,
    connection_name := some "HomeWiFi", driver := some "iwlwifi",
    is_usb := false, is_internal := true, is_vpn := false, is_mobile := false,
    is_tethered := false, is_bridge := false, ap_support := true,
    supports_5ghz := false, supports_concurrency := false,
    concurrency_channels := none, in_monitor_mode := false, has_ip := true,
    ip_address := some "192.168.1.50", is_internet_source := true,
    label := "wlan0", issues := [] }

/-- The matching benign preflight environment. -/
def soloRadioEnv : PreflightEnv :=
  { interfaces := [soloRadio], nmCheck := some true, nmExc := "",
    rfkillOk := true, rfkillMsg := "", recommendedHotspot := none,
    ifaceState := fun _ => (true, none),
    upstreamOf := fun _ => some "wlan0", otherPids := [] }

/-- Concrete run for C1: the connected sole radio is blocked without the
flag and allowed (with the loud warning) with it. -/
theorem preflight_single_radio_disconnect_risk_witness :
    ((preflight_checks soloRadioEnv (some "wlan0") none none false false "bg").ok
        = false ∧
     (preflight_checks soloRadioEnv (some "wlan0") none none false false "bg").errors
        = [msgBlocked "wlan0" "HomeWiFi"]) ∧
    ((preflight_checks soloRadioEnv (some "wlan0") none none false true "bg").ok
        = true ∧
     msgForced "wlan0" "HomeWiFi" ∈
       (preflight_checks soloRadioEnv (some "wlan0") none none false true "bg").warnings) := by
  have h := preflight_single_radio_disconnect_risk soloRadio soloRadioEnv false
    rfl rfl rfl rfl rfl rfl rfl rfl rfl rfl rfl rfl rfl
  exact ⟨⟨h.1.1, h.1.2⟩, ⟨h.2.1, h.2.2.2⟩⟩

/-! ## Claim C10 -/

/-- C10 (amended): for every *non-empty* password handed to preflight in
an otherwise-benign single-radio configuration, a fatal error is recorded
exactly when the length is outside 8–63 (too short yields the WPA2-minimum
error, too long the 63-character error), and the report succeeds exactly
when the length is within 8–63.  An empty password is treated by the
truthiness test of the source as absent and validated not at all (see the
counterexample). -/
theorem preflight_password_length (t : IfaceInfo) (env : PreflightEnv)
    (ev force : Bool) (pw : String)
    (hifc : env.interfaces = [t]) (hty : t.itype = "wifi")
    (hconn : t.connected = false) (hmon : t.in_monitor_mode = false)
    (hap : t.ap_support = true) (hname : t.name.isEmpty = false)
    (hnm : env.nmCheck = some true) (hrf : env.rfkillOk = true)
    (hstate : env.ifaceState t.name = (true, none))
    (hpw : pw.isEmpty = false) :
    ((preflight_checks env (some t.name) none (some pw) ev force "bg").errors =
      if pw.length < 8 then [msgPwShort]
      else if pw.length > 63 then [msgPwLong]
      else []) ∧
    ((preflight_checks env (some t.name) none (some pw) ev force "bg").ok = true ↔
      (8 ≤ pw.length ∧ pw.length ≤ 63)) := by
  simp [preflight_checks, preflightTail, busyCheck, preflightFinalize, pyStrOpt,
    hifc, hty, hconn, hmon, hap, hname, hnm, hrf, hstate, hpw]
  by_cases h8 : pw.length < 8
  · simp [h8, preflightFinalize]
  · by_cases h63 : 63 < pw.length
    · simp [h8, h63, preflightFinalize]
    · simp [h8, h63, preflightFinalize]
      omega

/-- A concrete disconnected radio for the password scenarios. -/
def idleRadio : IfaceInfo :=
  { name := "wlan0", itype := "wifi", state := "disconnected",
    connected := false, connection_name := none, driver := some "iwlwifi",
    is_usb := false, is_internal := true, is_vpn := false, is_mobile := false,
    is_tethered := false, is_bridge := false, ap_support := true,
    supports_5ghz := false, supports_concurrency := false,
    concurrency_channels := none, in_monitor_mode := false, has_ip := false,
    ip_address := none, is_internet_source := false, label := "wlan0",
    issues := [] }

/-- The matching benign environment. -/
def idleRadioEnv : PreflightEnv :=
  { interfaces := [idleRadio], nmCheck := some true, nmExc := "",
    rfkillOk := true, rfkillMsg := "", recommendedHotspot := none,
    ifaceState := fun _ => (true, none),
    upstreamOf := fun _ => some "eth0", otherPids := [] }

/-- C10 counterexample: the empty password has length 0, outside 8–63,
yet preflight records no error at all and succeeds — the Python
`if password:` truthiness test skips validation for `""`, so "fatal error
iff length outside 8–63" fails for supplied-but-empty passwords. -/
theorem preflight_empty_password_counterexample :
    (preflight_checks idleRadioEnv (some "wlan0") none (some "") false false "bg").ok
        = true ∧
    (preflight_checks idleRadioEnv (some "wlan0") none (some "") false false "bg").errors
        = [] ∧
    ¬(8 ≤ ("" : String).length ∧ ("" : String).length ≤ 63) := by
  refine ⟨by decide, by decide, by decide⟩

/-- Concrete run for C10 (amended): length 7 yields exactly the WPA2
minimum-length fatal error; length 8 passes. -/
theorem preflight_password_length_witness :
    (preflight_checks idleRadioEnv (some "wlan0") none (some "1234567") false false "bg").errors
        = [msgPwShort] ∧
    (preflight_checks idleRadioEnv (some "wlan0") none (some "12345678") false false "bg").ok
        = true := by
  have h7 := preflight_password_length idleRadio idleRadioEnv false false
    "1234567" rfl rfl rfl rfl rfl rfl rfl rfl rfl rfl
  have h8 := preflight_password_length idleRadio idleRadioEnv false false
    "12345678" rfl rfl rfl rfl rfl rfl rfl rfl rfl rfl
  rw [show idleRadio.name = "wlan0" from rfl] at h7 h8
  constructor
  · rw [h7.1]
    decide
  · exact h8.2.mpr (by decide)

/-! ## Claim C2 -/

/-- Is the action a `nmcli device disconnect <iface>` invocation — the one
command that would break the client association of the physical radio? -/
def isNmcliDisconnect : Act → Bool
  | Act.run ("nmcli" :: "device" :: "disconnect" :: _) => true
  | _ => false

theorem all_no_disc_ite (c : Prop) [Decidable c] (l₁ l₂ : List Act) :
    ((if c then l₁ else l₂).all (fun a => !isNmcliDisconnect a)) =
      if c then (l₁.all (fun a => !isNmcliDisconnect a))
      else (l₂.all (fun a => !isNmcliDisconnect a)) :=
  apply_ite (fun l => List.all l (fun a => !isNmcliDisconnect a)) c l₁ l₂

theorem channelSelection_all_no_disc (e : ConcEnv) (p b : String) (cc : Nat) :
    ((channelSelection e p b cc).1.all (fun a => !isNmcliDisconnect a)) = true := by
  unfold channelSelection
  by_cases h : cc ≥ 2
  · rw [if_pos h]; rfl
  · rw [if_neg h]; rfl

theorem regulatoryCheckActs_all_no_disc (e : ConcEnv) (p : String) (ch : Nat) :
    ((regulatoryCheckActs e p ch).all (fun a => !isNmcliDisconnect a)) = true := by
  unfold regulatoryCheckActs
  by_cases h : ch ≤ 14
  · rw [if_pos h]; rfl
  · rw [if_neg h]
    dsimp only
    cases hap : e.apAllowed <;> rfl

theorem delete_virtual_all_no_disc (f : String → Bool) (p : String) :
    ((delete_virtual_ap_interface f p).1.all (fun a => !isNmcliDisconnect a)) = true := by
  unfold delete_virtual_ap_interface
  dsimp only
  cases hf : f (p ++ "_ap") <;> rfl

theorem create_virtual_all_no_disc (e : ConcEnv) (p : String) :
    ((create_virtual_ap_interface e p).1.all (fun a => !isNmcliDisconnect a)) = true := by
  obtain ⟨ue, vpre, iw, ver, sta, phy, ap, hs, pw, vc⟩ := e
  unfold create_virtual_ap_interface
  cases vpre <;> cases iw <;> cases ver <;> rfl

theorem upstreamQueryActs_all_no_disc (ue : UpstreamEnv) (ev : Bool) :
    ((upstreamQueryActs ue ev).all (fun a => !isNmcliDisconnect a)) = true := by
  unfold upstreamQueryActs
  cases ev
  · cases h1 : (ue.routeGet "1.1.1.1").bind searchDevStr
    · cases h2 : (ue.routeGet "8.8.8.8").bind searchDevStr <;> rfl
    · rfl
  · rfl

theorem setup_network_all_no_disc (i g u : String) :
    ((setup_concurrent_ap_network i g u).all (fun a => !isNmcliDisconnect a)) = true := rfl

theorem start_hostapd_all_no_disc (e : ConcEnv) (fs : List String) :
    (((start_hostapd e fs).1).all (fun a => !isNmcliDisconnect a)) = true := by
  unfold start_hostapd
  dsimp only
  cases hs : e.hostapdStarts <;> rfl

theorem stop_concurrent_all_no_disc (fs : List String) :
    (((stop_concurrent_mode fs).1).all (fun a => !isNmcliDisconnect a)) = true := by
  unfold stop_concurrent_mode
  dsimp only
  simp only [List.all_append, all_no_disc_ite]
  repeat' split
  all_goals rfl

set_option maxHeartbeats 3200000 in
/-- C2: In Concurrent mode, when the virtual AP interface was created but
hostapd fails to start, the branch performs the full teardown — both
helper daemons are killed (`pkill`), the generated hostapd and dnsmasq
configuration files are removed, the virtual AP interface is deleted, the
run marker is removed — the process exits with code 1, and no action in
the whole trace is an `nmcli device disconnect`, so the client association
of the physical radio is never touched.  (`[PID_FILE]` is the file-system
state on entry: `main` has just written its pid file.) -/
theorem concurrent_hostapd_failure_teardown (e : ConcEnv)
    (phys ssid band : String) (ev : Bool) (cc : Nat)
    (hiw : e.iwAddOk = true) (hver : e.verifyOk = true)
    (hfail : e.hostapdStarts = false) (hvirt : e.virtExistsAtCleanup = true) :
    (concurrent_mode_start e phys ssid band ev cc [PID_FILE]).2.2 = some 1 ∧
    Act.run ["pkill", "-f", "hostapd.*hotspot"] ∈
      (concurrent_mode_start e phys ssid band ev cc [PID_FILE]).1 ∧
    Act.run ["pkill", "-f", "dnsmasq.*hotspot"] ∈
      (concurrent_mode_start e phys ssid band ev cc [PID_FILE]).1 ∧
    Act.removeFile HOSTAPD_CONF ∈
      (concurrent_mode_start e phys ssid band ev cc [PID_FILE]).1 ∧
    Act.removeFile DNSMASQ_CONF ∈
      (concurrent_mode_start e phys ssid band ev cc [PID_FILE]).1 ∧
    Act.run ["iw", "dev", phys ++ "_ap", "del"] ∈
      (concurrent_mode_start e phys ssid band ev cc [PID_FILE]).1 ∧
    Act.removeFile PID_FILE ∈
      (concurrent_mode_start e phys ssid band ev cc [PID_FILE]).1 ∧
    (∀ a ∈ (concurrent_mode_start e phys ssid band ev cc [PID_FILE]).1,
      isNmcliDisconnect a = false) := by
  obtain ⟨ue, vpre, iw, ver, sta, phy, ap, hs, pw, vc⟩ := e
  dsimp only at hiw hver hfail hvirt
  subst hiw hver hfail hvirt
  have hch := List.all_eq_true.mp
    (channelSelection_all_no_disc ⟨ue, vpre, true, true, sta, phy, ap, false, pw, true⟩ phys band cc)
  have hreg := fun ch => List.all_eq_true.mp
    (regulatoryCheckActs_all_no_disc ⟨ue, vpre, true, true, sta, phy, ap, false, pw, true⟩ phys ch)
  have hcre := List.all_eq_true.mp
    (create_virtual_all_no_disc ⟨ue, vpre, true, true, sta, phy, ap, false, pw, true⟩ phys)
  have hup := List.all_eq_true.mp (upstreamQueryActs_all_no_disc ue ev)
  have hsetup := fun i g u => List.all_eq_true.mp (setup_network_all_no_disc i g u)
  have hstop := fun fs => List.all_eq_true.mp (stop_concurrent_all_no_disc fs)
  have hdel := fun f p => List.all_eq_true.mp (delete_virtual_all_no_disc f p)
  have hcr2 : ∀ pw vpre, (create_virtual_ap_interface
      ⟨ue, vpre, true, true, sta, phy, ap, false, pw, true⟩ phys).2 =
      some (phys ++ "_ap") := by
    intro pw vpre; cases vpre <;> rfl
  refine ⟨?_, ?_, ?_, ?_, ?_, ?_, ?_, ?nd⟩
  case nd =>
    intro x hx
    simp [concurrent_mode_start, hcr2, start_hostapd, fsAdd, HOSTAPD_CONF,
      HOSTAPD_PIDF, DNSMASQ_CONF, DNSMASQ_PIDF, DNSMASQ_LEASES, PID_FILE] at hx
    repeat' split at hx
    all_goals
      try simp only [List.mem_append, List.mem_cons, List.not_mem_nil,
        or_false] at hx
    all_goals
      repeat'
        first
          | (exact (by simpa using hch x hx))
          | (exact (by simpa using hreg _ x hx))
          | (exact (by simpa using hcre x hx))
          | (exact (by simpa using hup x hx))
          | (exact (by simpa using hsetup _ _ _ x hx))
          | (exact (by simpa using hstop _ x hx))
          | (exact (by simpa using hdel _ _ x hx))
          | (subst hx; rfl)
          | (rcases hx with hx | hx)
  all_goals
    cases vpre <;> cases pw <;>
      simp [concurrent_mode_start, channelSelection, regulatoryCheckActs,
        create_virtual_ap_interface, delete_virtual_ap_interface, start_hostapd,
        stop_concurrent_mode, setup_concurrent_ap_network, fsAdd, HOSTAPD_CONF,
        HOSTAPD_PIDF, DNSMASQ_CONF, DNSMASQ_PIDF, DNSMASQ_LEASES, PID_FILE]

/-- A concrete concurrent-mode environment in which the virtual interface
comes up but hostapd dies. -/
def concFailEnv : ConcEnv :=
  { ue := ⟨fun _ => none, none⟩, virtPreExists := false, iwAddOk := true,
    verifyOk := true, staChannel := 6, phyName := "phy0", apAllowed := true,
    hostapdStarts := false, hostapdPidWritten := false,
    virtExistsAtCleanup := true }

/-- Concrete run for C2: on hostapd failure the branch exits with code 1,
deletes the virtual interface, and removes the generated configs. -/
theorem concurrent_hostapd_failure_teardown_witness :
    (concurrent_mode_start concFailEnv "wlan0" "MyAP" "bg" false 1 [PID_FILE]).2.2 =
      some 1 ∧
    Act.run ["iw", "dev", "wlan0" ++ "_ap", "del"] ∈
      (concurrent_mode_start concFailEnv "wlan0" "MyAP" "bg" false 1 [PID_FILE]).1 ∧
    Act.removeFile HOSTAPD_CONF ∈
      (concurrent_mode_start concFailEnv "wlan0" "MyAP" "bg" false 1 [PID_FILE]).1 := by
  have h := concurrent_hostapd_failure_teardown concFailEnv "wlan0" "MyAP" "bg"
    false 1 rfl rfl rfl rfl
  exact ⟨h.1, h.2.2.2.2.2.1, h.2.2.2.1⟩

end Hotspot
